import Mathlib

/-!
Verification of the espnow_manager core against its specification.

The definitions below are a shallow embedding of the C++ sources:
machine integers become `Nat` with explicit bounds or `% 2^w` reductions,
byte buffers become `List Nat` (each element a byte value), fallible
calls return `Option`/an error code, and each stateful component is a
pure function from its explicit state to the next state.
-/

/-- Error codes of the platform error type, restricted to the values the
embedded sources produce. -/
inductive EspErr where
  | ok
  | fail
  | invalidArg
  | notFound
  | timeout
  | invalidSize
  deriving Repr, DecidableEq

/-- Maximum radio frame length (ESP_NOW_MAX_DATA_LEN). -/
def ESP_NOW_MAX_DATA_LEN : Nat := 250

/-- Size of the trailing CRC field of a frame (protocol_types.hpp). -/
def CRC_SIZE : Nat := 1

/-- Size of the packed MessageHeader (protocol_types.hpp / static_assert). -/
def MESSAGE_HEADER_SIZE : Nat := 16

/-- Maximum number of peers in the peer table (espnow_types.hpp). -/
def MAX_PEERS : Nat := 19

/-- Maximum logical retries for unacknowledged packets (protocol_types.hpp). -/
def MAX_LOGICAL_RETRIES : Nat := 3

/-- Maximum physical transmission failures before scanning (protocol_types.hpp). -/
def MAX_PHYSICAL_FAILURES : Nat := 3

/-- Scan attempts per channel (protocol_types.hpp). -/
def SCAN_CHANNEL_ATTEMPTS : Nat := 2

/-- The packed 16-byte universal message header (protocol_messages.hpp).
Integer fields are little-endian on the wire; bounds are carried by
`MessageHeader.Wf`. -/
structure MessageHeader where
  msg_type : Nat
  sequence_number : Nat
  sender_type : Nat
  sender_node_id : Nat
  payload_type : Nat
  requires_ack : Bool
  dest_node_id : Nat
  timestamp_ms : Nat
  deriving Repr, DecidableEq

/-- Field bounds of a header as enforced by the C++ integer types
(uint8, uint16, uint64). -/
def MessageHeader.Wf (h : MessageHeader) : Prop :=
  h.msg_type < 256 ∧ h.sequence_number < 65536 ∧ h.sender_type < 256 ∧
  h.sender_node_id < 256 ∧ h.payload_type < 256 ∧ h.dest_node_id < 256 ∧
  h.timestamp_ms < 18446744073709551616

instance (h : MessageHeader) : Decidable h.Wf := by
  unfold MessageHeader.Wf; infer_instance

/-- The byte image of a packed MessageHeader, exactly as `memcpy` of the
struct produces it (offsets per the on-wire layout in protocol_messages.hpp). -/
def headerBytes (h : MessageHeader) : List Nat :=
  [h.msg_type,
   h.sequence_number % 256, h.sequence_number / 256 % 256,
   h.sender_type, h.sender_node_id, h.payload_type,
   (if h.requires_ack then 1 else 0), h.dest_node_id,
   h.timestamp_ms % 256,
   h.timestamp_ms / 256 % 256,
   h.timestamp_ms / 65536 % 256,
   h.timestamp_ms / 16777216 % 256,
   h.timestamp_ms / 4294967296 % 256,
   h.timestamp_ms / 1099511627776 % 256,
   h.timestamp_ms / 281474976710656 % 256,
   h.timestamp_ms / 72057594037927936 % 256]

/-- One reflected LFSR step of the CRC-8 (reversed polynomial 0xE0 for the
standard polynomial 0x07). -/
def crc8_step (r : Nat) : Nat :=
  if r % 2 = 1 then (r / 2) ^^^ 0xE0 else r / 2

/-- Per-byte update of the reflected CRC-8 state. -/
def crc8_update (c b : Nat) : Nat :=
  crc8_step^[8] ((c ^^^ b) % 256)

/-- Modelled from the spec: the platform ROM routine `esp_rom_crc8_le`
(external to this repository).  Per spec sections 3 and 6 it is the CRC-8
with polynomial 0x07, reflected input and output, with the state inverted
on entry and on exit, seeded here with the caller-supplied init value. -/
def esp_rom_crc8_le (init : Nat) (data : List Nat) : Nat :=
  255 ^^^ (data.foldl crc8_update (255 ^^^ init % 256))

namespace RealMessageCodec

/-- RealMessageCodec::calculate_crc (message_codec.cpp): CRC-8 of the first
`len` bytes of the buffer. -/
def calculate_crc (data : List Nat) (len : Nat) : Nat :=
  esp_rom_crc8_le 0 (data.take len)

/-- RealMessageCodec::encode (message_codec.cpp): header bytes, then the
payload, then the CRC-8 over everything preceding it; an empty result
when the total would exceed the radio MTU. -/
def encode (h : MessageHeader) (payload : List Nat) : List Nat :=
  let total_len := MESSAGE_HEADER_SIZE + payload.length + CRC_SIZE
  if total_len > ESP_NOW_MAX_DATA_LEN then []
  else
    let body := headerBytes h ++ payload
    body ++ [esp_rom_crc8_le 0 body]

/-- RealMessageCodec::decode_header (message_codec.cpp): raw copy of the
first 16 bytes, absent when fewer than header+crc bytes are present. -/
def decode_header (data : List Nat) (len : Nat) : Option MessageHeader :=
  if len < MESSAGE_HEADER_SIZE + CRC_SIZE then none
  else some
    { msg_type := data.getD 0 0
      sequence_number := data.getD 1 0 + 256 * data.getD 2 0
      sender_type := data.getD 3 0
      sender_node_id := data.getD 4 0
      payload_type := data.getD 5 0
      requires_ack := data.getD 6 0 != 0
      dest_node_id := data.getD 7 0
      timestamp_ms :=
        data.getD 8 0 + 256 * data.getD 9 0 + 65536 * data.getD 10 0 +
        16777216 * data.getD 11 0 + 4294967296 * data.getD 12 0 +
        1099511627776 * data.getD 13 0 + 281474976710656 * data.getD 14 0 +
        72057594037927936 * data.getD 15 0 }

/-- RealMessageCodec::validate_crc (message_codec.cpp): compare the last
byte with the CRC-8 of everything before it; reject lengths below the
CRC size. -/
def validate_crc (data : List Nat) (len : Nat) : Bool :=
  if len < CRC_SIZE then false
  else data.getD (len - 1) 0 == calculate_crc data (len - CRC_SIZE)

end RealMessageCodec

/-- Transmission states (espnow_types.hpp). -/
inductive TxState where
  | IDLE
  | SENDING
  | WAITING_FOR_ACK
  | RETRYING
  | SCANNING
  deriving Repr, DecidableEq

/-- Packet queued for transmission (espnow_types.hpp). -/
structure TxPacket where
  dest_mac : List Nat
  data : List Nat
  len : Nat
  requires_ack : Bool
  deriving Repr, DecidableEq

/-- Tracking record for a message waiting for a logical ack
(espnow_types.hpp); the state machine stores it but never reads its
fields. -/
structure PendingAck where
  sequence_number : Nat
  timestamp_ms : Nat
  retries_left : Nat
  packet : TxPacket
  node_id : Nat
  deriving Repr, DecidableEq

/-- The state held by RealTxStateMachine (tx_state_machine.hpp): current
state, the optional pending ack and the two uint8 failure counters. -/
structure TxMachine where
  current_state : TxState
  pending_ack : Option PendingAck
  phy_send_fail_count : Nat
  phy_consecutive_fail_count : Nat
  deriving Repr, DecidableEq

namespace RealTxStateMachine

/-- Constructor and reset() of RealTxStateMachine (tx_state_machine.cpp). -/
def reset : TxMachine :=
  { current_state := TxState.IDLE, pending_ack := none,
    phy_send_fail_count := 0, phy_consecutive_fail_count := 0 }

/-- RealTxStateMachine::set_pending_ack (tx_state_machine.cpp). -/
def set_pending_ack (m : TxMachine) (pa : PendingAck) : TxMachine :=
  { m with pending_ack := some pa }

/-- RealTxStateMachine::on_tx_success (tx_state_machine.cpp). -/
def on_tx_success (m : TxMachine) (requires_ack : Bool) : TxMachine :=
  if requires_ack then { m with current_state := TxState.WAITING_FOR_ACK }
  else { m with current_state := TxState.IDLE }

/-- RealTxStateMachine::on_ack_received (tx_state_machine.cpp). -/
def on_ack_received (m : TxMachine) : TxMachine :=
  { m with current_state := TxState.IDLE, pending_ack := none,
           phy_send_fail_count := 0, phy_consecutive_fail_count := 0 }

/-- RealTxStateMachine::on_link_alive (tx_state_machine.cpp): zero both
failure counters, leave state and pending ack untouched. -/
def on_link_alive (m : TxMachine) : TxMachine :=
  { m with phy_send_fail_count := 0, phy_consecutive_fail_count := 0 }

/-- RealTxStateMachine::on_ack_timeout (tx_state_machine.cpp). -/
def on_ack_timeout (m : TxMachine) : TxMachine :=
  { m with current_state := TxState.RETRYING }

/-- RealTxStateMachine::on_physical_fail (tx_state_machine.cpp).  The
uint8 counters increment modulo 256. -/
def on_physical_fail (m : TxMachine) : TxMachine :=
  let consec := (m.phy_consecutive_fail_count + 1) % 256
  match m.pending_ack with
  | some _ =>
    let send := (m.phy_send_fail_count + 1) % 256
    if MAX_LOGICAL_RETRIES ≤ send ∨ MAX_PHYSICAL_FAILURES ≤ consec then
      { current_state := TxState.SCANNING, pending_ack := none,
        phy_send_fail_count := 0, phy_consecutive_fail_count := 0 }
    else
      { m with current_state := TxState.WAITING_FOR_ACK,
               phy_send_fail_count := send, phy_consecutive_fail_count := consec }
  | none =>
    if MAX_PHYSICAL_FAILURES ≤ consec then
      { m with current_state := TxState.SCANNING,
               phy_send_fail_count := 0, phy_consecutive_fail_count := 0 }
    else
      { m with phy_consecutive_fail_count := consec }

/-- RealTxStateMachine::on_max_retries (tx_state_machine.cpp). -/
def on_max_retries (m : TxMachine) : TxMachine :=
  { m with current_state := TxState.IDLE, pending_ack := none }

end RealTxStateMachine

/-- Channel normalization at the top of RealChannelScanner::scan
(channel_scanner.cpp): a start channel outside 1..13 becomes 1. -/
def normChannel (start : Nat) : Nat :=
  if start < 1 ∨ 13 < start then 1 else start

/-- The channel visited at loop offset k (channel_scanner.cpp):
((current_channel - 1 + offset) % 13) + 1. -/
def chanAt (cur k : Nat) : Nat :=
  (cur - 1 + k) % 13 + 1

namespace RealChannelScanner

/-- The probe header built per channel (channel_scanner.cpp).
payload_type and requires_ack are left uninitialized by the source; the
scan logic only uses the length of the encoded probe, so they are fixed
to 0 and false here. -/
def probeHeader (my_node_id my_node_type : Nat) : MessageHeader :=
  { msg_type := 0x30, sequence_number := 0, sender_type := my_node_type,
    sender_node_id := my_node_id, payload_type := 0, requires_ack := false,
    dest_node_id := 1, timestamp_ms := 0 }

/-- The radio stub answers the wait_for_event of a given (channel,
attempt) pair; a channel is signalled when one of its
SCAN_CHANNEL_ATTEMPTS = 2 waits fires (the loop stops at the first). -/
def signalled (sig : Nat → Nat → Bool) (ch : Nat) : Bool :=
  sig ch 0 || sig ch 1

/-- The channel loop of RealChannelScanner::scan (channel_scanner.cpp),
peeled into structural recursion over the remaining offsets.  Returns
the list of channels passed to set_channel, the final current_channel
and the hub_found flag. -/
def scanAux (sig : Nat → Nat → Bool) (my_node_id my_node_type cur : Nat) :
    Nat → Nat → List Nat × Nat × Bool
  | _, 0 => ([], cur, false)
  | offset, fuel+1 =>
    let ch := chanAt cur offset
    if (RealMessageCodec.encode (probeHeader my_node_id my_node_type) []).isEmpty then
      let r := scanAux sig my_node_id my_node_type cur (offset+1) fuel
      (ch :: r.1, r.2)
    else if signalled sig ch then ([ch], ch, true)
    else
      let r := scanAux sig my_node_id my_node_type cur (offset+1) fuel
      (ch :: r.1, r.2)

/-- RealChannelScanner::scan (channel_scanner.cpp). -/
def scan (sig : Nat → Nat → Bool) (my_node_id my_node_type start_channel : Nat) :
    List Nat × Nat × Bool :=
  scanAux sig my_node_id my_node_type (normChannel start_channel) 0 13

end RealChannelScanner

/-- Peer record persisted to storage (espnow_types.hpp PersistentPeer). -/
structure PersistentPeer where
  mac : List Nat
  type : Nat
  node_id : Nat
  channel : Nat
  paired : Bool
  heartbeat_interval_ms : Nat
  deriving Repr, DecidableEq

/-- An all-zero persistent peer record, as memset(0) produces. -/
def zeroPersistentPeer : PersistentPeer :=
  { mac := [0, 0, 0, 0, 0, 0], type := 0, node_id := 0, channel := 0,
    paired := false, heartbeat_interval_ms := 0 }

/-- The versioned persistent blob (espnow_storage.hpp PersistentData).
The peers field models the fixed array of MAX_PERSISTENT_PEERS slots. -/
structure PersistentData where
  magic : Nat
  version : Nat
  wifi_channel : Nat
  num_peers : Nat
  peers : List PersistentPeer
  crc : Nat
  deriving Repr, DecidableEq

/-- Blob magic (espnow_storage.hpp). -/
def ESPNOW_STORAGE_MAGIC : Nat := 0x4553504E

/-- Blob version (espnow_storage.hpp). -/
def ESPNOW_STORAGE_VERSION : Nat := 1

/-- Capacity of the persisted peer array (espnow_storage.hpp). -/
def MAX_PERSISTENT_PEERS : Nat := 19

/-- One reflected LFSR step of the CRC-32 (reversed polynomial
0xEDB88320 for the standard polynomial 0x04C11DB7). -/
def crc32_step (r : Nat) : Nat :=
  if r % 2 = 1 then (r / 2) ^^^ 0xEDB88320 else r / 2

/-- Per-byte update of the reflected CRC-32 state. -/
def crc32_update (c b : Nat) : Nat :=
  crc32_step^[8] ((c ^^^ b) % 4294967296)

/-- Modelled from the spec: the platform ROM routine `esp_rom_crc32_le`
(external to this repository), the standard reflected CRC-32 with the
state inverted on entry and on exit. -/
def esp_rom_crc32_le (init : Nat) (data : List Nat) : Nat :=
  4294967295 ^^^ (data.foldl crc32_update (4294967295 ^^^ init % 4294967296))

/-- Little-endian image of a uint32 field. -/
def le32 (n : Nat) : List Nat :=
  [n % 256, n / 256 % 256, n / 65536 % 256, n / 16777216 % 256]

/-- The byte image of one packed-in-memory PersistentPeer slot: 6 mac
bytes, type, node_id, channel, paired, two alignment padding bytes
(zero after the memset in EspNowStorage::save), then the uint32
heartbeat interval. -/
def persistentPeerBytes (p : PersistentPeer) : List Nat :=
  p.mac ++ [p.type, p.node_id, p.channel, if p.paired then 1 else 0, 0, 0] ++
  le32 p.heartbeat_interval_ms

/-- The bytes of a PersistentData blob that precede its crc field
(offsetof(PersistentData, crc) bytes): magic, version, wifi_channel,
num_peers, two alignment padding bytes, then the peer array. -/
def preCrcBytes (d : PersistentData) : List Nat :=
  le32 d.magic ++ le32 d.version ++ [d.wifi_channel, d.num_peers, 0, 0] ++
  (d.peers.map persistentPeerBytes).flatten

namespace EspNowStorage

/-- EspNowStorage::calculate_crc (espnow_storage.cpp): CRC-32 over every
byte preceding the crc field. -/
def calculate_crc (d : PersistentData) : Nat :=
  esp_rom_crc32_le 0 (preCrcBytes d)

/-- The magic/version/crc validation applied by EspNowStorage::load. -/
def validData (d : PersistentData) : Bool :=
  d.magic == ESPNOW_STORAGE_MAGIC && d.version == ESPNOW_STORAGE_VERSION &&
  d.crc == calculate_crc d

/-- The two persistence tiers.  A tier holds the blob last written to
it, or none when its load fails (absent key, size mismatch, cold
boot garbage is modelled as an invalid blob). -/
structure StorageState where
  rtc : Option PersistentData
  nvs : Option PersistentData
  deriving Repr, DecidableEq

/-- The blob EspNowStorage::save builds: num_peers clamped to the array
capacity, unused slots zero from the memset, crc over the preceding
bytes. -/
def mkBlob (wifi_channel : Nat) (peers : List PersistentPeer) : PersistentData :=
  let base : PersistentData :=
    { magic := ESPNOW_STORAGE_MAGIC, version := ESPNOW_STORAGE_VERSION,
      wifi_channel := wifi_channel,
      num_peers := min peers.length MAX_PERSISTENT_PEERS,
      peers := peers.take MAX_PERSISTENT_PEERS ++
        List.replicate (MAX_PERSISTENT_PEERS - min peers.length MAX_PERSISTENT_PEERS)
          zeroPersistentPeer,
      crc := 0 }
  { base with crc := calculate_crc base }

/-- EspNowStorage::save (espnow_storage.cpp): the blob is dirty when the
RTC tier load fails or returns different content (the memcmp); a dirty
blob is written to RTC, and NVS is written when dirty or forced.
Backend write failures are not modelled (the mock backends of the host
tests always accept writes). -/
def save (st : StorageState) (wifi_channel : Nat) (peers : List PersistentPeer)
    (force_nvs_commit : Bool) : StorageState × EspErr :=
  let d := mkBlob wifi_channel peers
  if st.rtc = some d then
    if force_nvs_commit then ({ st with nvs := some d }, EspErr.ok)
    else (st, EspErr.ok)
  else ({ rtc := some d, nvs := some d }, EspErr.ok)

/-- The NVS fallback stage of EspNowStorage::load: on a valid blob,
mirror it into the RTC tier and return it. -/
def loadNvs (st : StorageState) : StorageState × Option (Nat × List PersistentPeer) :=
  match st.nvs with
  | some d =>
    if validData d then
      ({ st with rtc := some d }, some (d.wifi_channel, d.peers.take d.num_peers))
    else (st, none)
  | none => (st, none)

/-- EspNowStorage::load (espnow_storage.cpp): try the RTC tier first; on
any magic/version/crc failure fall back to NVS; none models
ESP_ERR_NOT_FOUND. -/
def load (st : StorageState) : StorageState × Option (Nat × List PersistentPeer) :=
  match st.rtc with
  | some d =>
    if validData d then (st, some (d.wifi_channel, d.peers.take d.num_peers))
    else loadNvs st
  | none => loadNvs st

end EspNowStorage

/-- In-memory peer record (espnow_types.hpp PeerInfo). -/
structure PeerInfo where
  mac : List Nat
  type : Nat
  node_id : Nat
  channel : Nat
  last_seen_ms : Nat
  paired : Bool
  heartbeat_interval_ms : Nat
  deriving Repr, DecidableEq, Inhabited

namespace RealPeerManager

/-- RealPeerManager::info_to_persistent (peer_manager.cpp). -/
def info_to_persistent (p : PeerInfo) : PersistentPeer :=
  { mac := p.mac, type := p.type, node_id := p.node_id, channel := p.channel,
    paired := p.paired, heartbeat_interval_ms := p.heartbeat_interval_ms }

/-- RealPeerManager::persistent_to_info (peer_manager.cpp): note that
last_seen_ms is reset to 0. -/
def persistent_to_info (sp : PersistentPeer) : PeerInfo :=
  { mac := sp.mac, type := sp.type, node_id := sp.node_id, channel := sp.channel,
    last_seen_ms := 0, paired := sp.paired,
    heartbeat_interval_ms := sp.heartbeat_interval_ms }

/-- Results the radio abstraction returns for each kind of driver call
(esp_now_add_peer / esp_now_del_peer / esp_now_mod_peer). -/
structure RadioResults where
  add_peer : EspErr
  del_peer : EspErr
  mod_peer : EspErr
  deriving Repr, DecidableEq

/-- Peer-manager state: the peer vector plus the trace of snapshots
handed to storage (channel, converted peer list), in call order. -/
structure PmState where
  peers : List PeerInfo
  saves : List (Nat × List PersistentPeer)
  deriving Repr, DecidableEq

/-- RealPeerManager::save_to_storage (peer_manager.cpp); its storage
errors are swallowed after logging. -/
def save_to_storage (st : PmState) (wifi_channel : Nat) : PmState :=
  { st with saves := st.saves ++ [(wifi_channel, st.peers.map info_to_persistent)] }

/-- RealPeerManager::add (peer_manager.cpp).  The update branch asks the
radio to add the new mac then delete the old one (or modify on a pure
channel change) and only mutates the vector when that succeeded; the
new-peer branch evicts the LRU victim by pop_back before asking the
radio to add, ignoring the eviction delete result. -/
def add (radio : RadioResults) (st : PmState) (id : Nat) (mac : Option (List Nat))
    (channel type heartbeat_interval_ms : Nat) : PmState × EspErr :=
  match mac with
  | none => (st, EspErr.invalidArg)
  | some m =>
    match st.peers.findIdx? (fun p => p.node_id == id) with
    | some i =>
      let pOld := st.peers.getD i default
      let result :=
        if pOld.mac ≠ m then
          (if radio.add_peer = EspErr.ok then radio.del_peer else radio.add_peer)
        else if pOld.channel ≠ channel then radio.mod_peer
        else EspErr.ok
      if result = EspErr.ok then
        let updated :=
          { pOld with mac := m, type := type, channel := channel,
                      heartbeat_interval_ms := heartbeat_interval_ms }
        let st2 := { st with peers := updated :: st.peers.eraseIdx i }
        (save_to_storage st2 channel, EspErr.ok)
      else (st, result)
    | none =>
      let peers0 := if MAX_PEERS ≤ st.peers.length then st.peers.dropLast else st.peers
      if radio.add_peer = EspErr.ok then
        let new_peer : PeerInfo :=
          { mac := m, type := type, node_id := id, channel := channel,
            last_seen_ms := 0, paired := true,
            heartbeat_interval_ms := heartbeat_interval_ms }
        let st2 := { st with peers := new_peer :: peers0 }
        (save_to_storage st2 channel, EspErr.ok)
      else ({ st with peers := peers0 }, radio.add_peer)

/-- RealPeerManager::remove (peer_manager.cpp): erase the record, pass
the radio delete result through, persist a snapshot with the removed
record's channel regardless of that result. -/
def remove (radio : RadioResults) (st : PmState) (id : Nat) : PmState × EspErr :=
  match st.peers.findIdx? (fun p => p.node_id == id) with
  | none => (st, EspErr.notFound)
  | some i =>
    let p := st.peers.getD i default
    let st2 := { st with peers := st.peers.eraseIdx i }
    (save_to_storage st2 p.channel, radio.del_peer)

/-- RealPeerManager::persist (peer_manager.cpp) routed through the real
storage composer: saves the converted peer list with force_nvs_commit. -/
def persist (stg : EspNowStorage.StorageState) (peers : List PeerInfo)
    (wifi_channel : Nat) : EspNowStorage.StorageState × EspErr :=
  EspNowStorage.save stg wifi_channel (peers.map info_to_persistent) true

/-- RealPeerManager::load_from_storage (peer_manager.cpp): on a
successful storage load replace the table and the channel, otherwise
leave both as they were and pass the error through. -/
def load_from_storage (stg : EspNowStorage.StorageState) (peers : List PeerInfo)
    (wifi_channel : Nat) :
    EspNowStorage.StorageState × List PeerInfo × Nat × EspErr :=
  let r := EspNowStorage.load stg
  match r.2 with
  | some (ch, sps) => (r.1, sps.map persistent_to_info, ch, EspErr.ok)
  | none => (r.1, peers, wifi_channel, EspErr.notFound)

end RealPeerManager

/-- Receive packet as delivered to the handlers (espnow_types.hpp
RxPacket): source mac, the raw 250-byte buffer and the valid length. -/
structure RxPacket where
  src_mac : List Nat
  data : List Nat
  len : Nat
  deriving Repr, DecidableEq

/-- Little-endian uint32 read from a byte buffer at a given offset. -/
def readLE32 (data : List Nat) (off : Nat) : Nat :=
  data.getD off 0 + 256 * data.getD (off + 1) 0 +
  65536 * data.getD (off + 2) 0 + 16777216 * data.getD (off + 3) 0

/-- A peer_table.add call recorded by the pairing handler. -/
structure AddPeerCall where
  node_id : Nat
  mac : List Nat
  channel : Nat
  type : Nat
  heartbeat_interval_ms : Nat
  deriving Repr, DecidableEq

/-- The PAIR_RESPONSE the pairing handler queues, reduced to the fields
the source actually writes; wifi_channel is none in the rejected branch
where the source leaves the field uninitialized. -/
structure QueuedPairResponse where
  status : Nat
  wifi_channel : Option Nat
  sender_node_id : Nat
  sender_type : Nat
  dest_node_id : Nat
  dest_mac : List Nat
  deriving Repr, DecidableEq

/-- The observable effects of one RealPairingManager::handle_request
call. -/
structure PairingEffects where
  add_call : Option AddPeerCall
  response : Option QueuedPairResponse
  deriving Repr, DecidableEq

namespace RealPairingManager

/-- Byte offset of PairRequest.heartbeat_interval_ms inside the packed
PairRequest (header 16 + firmware_version 3 + uptime_ms 8 +
device_name 16). -/
def PAIR_REQUEST_HB_OFFSET : Nat := 43

/-- PairStatus::ACCEPTED (protocol_types.hpp). -/
def PAIR_ACCEPTED : Nat := 0

/-- PairStatus::REJECTED_NOT_ALLOWED (protocol_types.hpp). -/
def PAIR_REJECTED_NOT_ALLOWED : Nat := 1

/-- RealPairingManager::handle_request (pairing_manager.cpp).  The
current_channel argument is the channel the hub radio is actually on;
the source never consults it and hardcodes channel 1 both in the
peer_table.add call and in the response (the line carries the comment
that a real channel is needed there).  Encoding the 27-byte response
can never exceed the MTU, so the response is always queued. -/
def handle_request (is_active : Bool) (my_type my_id : Nat)
    (current_channel : Nat) (packet : RxPacket) : PairingEffects :=
  if !is_active || my_type != 1 then { add_call := none, response := none }
  else
    match RealMessageCodec.decode_header packet.data packet.len with
    | none => { add_call := none, response := none }
    | some header =>
      if header.sender_type = 1 then
        { add_call := none,
          response := some
            { status := PAIR_REJECTED_NOT_ALLOWED, wifi_channel := none,
              sender_node_id := my_id, sender_type := my_type,
              dest_node_id := header.sender_node_id, dest_mac := packet.src_mac } }
      else
        { add_call := some
            { node_id := header.sender_node_id, mac := packet.src_mac,
              channel := 1, type := header.sender_type,
              heartbeat_interval_ms := readLE32 packet.data PAIR_REQUEST_HB_OFFSET },
          response := some
            { status := PAIR_ACCEPTED, wifi_channel := some 1,
              sender_node_id := my_id, sender_type := my_type,
              dest_node_id := header.sender_node_id, dest_mac := packet.src_mac } }

end RealPairingManager

/-- The channel-related state the facade owns: the configured channel,
the channel stored for the broadcast peer in the radio driver, and the
trace of peer_manager.persist calls (espnow_manager.cpp). -/
structure EspNowChannelState where
  config_wifi_channel : Nat
  broadcast_peer_channel : Nat
  persist_calls : List Nat
  deriving Repr, DecidableEq

namespace EspNow

/-- EspNow::update_wifi_channel (espnow_manager.cpp): when the incoming
channel differs from the configured one, store it, retarget the
broadcast peer and persist; otherwise do nothing.  There is no special
case for channel 0. -/
def update_wifi_channel (st : EspNowChannelState) (channel : Nat) : EspNowChannelState :=
  if st.config_wifi_channel ≠ channel then
    { config_wifi_channel := channel, broadcast_peer_channel := channel,
      persist_calls := st.persist_calls ++ [channel] }
  else st

/-- Byte offset of HeartbeatResponse.wifi_channel inside the packed
HeartbeatResponse (header 16 + server_time_ms 8). -/
def HEARTBEAT_RESPONSE_CHANNEL_OFFSET : Nat := 24

/-- The channel-update portion of EspNow::transport_worker_task
(espnow_manager.cpp): after routing, a HEARTBEAT_RESPONSE feeds its
wifi_channel byte to update_wifi_channel, and a CHANNEL_SCAN_RESPONSE
feeds the radio's current channel.  radio_channel is the channel
esp_wifi_get_channel reports. -/
def transport_worker_channel_step (st : EspNowChannelState) (radio_channel : Nat)
    (packet : RxPacket) : EspNowChannelState :=
  match RealMessageCodec.decode_header packet.data packet.len with
  | none => st
  | some header =>
    if header.msg_type = 0x03 then
      update_wifi_channel st (packet.data.getD HEARTBEAT_RESPONSE_CHANNEL_OFFSET 0)
    else if header.msg_type = 0x31 then
      update_wifi_channel st radio_channel
    else st

end EspNow

/-- Inverse of one CRC-8 LFSR step, used to prove the step injective. -/
def crc8_unstep (r : Nat) : Nat :=
  if r / 128 % 2 = 1 then ((r ^^^ 0xE0) * 2 + 1) % 256 else (r * 2) % 256

set_option maxRecDepth 8192

theorem crc8_step_lt_fin : ∀ x : Fin 256, crc8_step x.val < 256 := by decide

theorem crc8_unstep_step_fin : ∀ x : Fin 256, crc8_unstep (crc8_step x.val) = x.val := by
  decide

theorem crc8_step_lt {x : Nat} (hx : x < 256) : crc8_step x < 256 :=
  crc8_step_lt_fin ⟨x, hx⟩

theorem crc8_step_inj {x y : Nat} (hx : x < 256) (hy : y < 256)
    (h : crc8_step x = crc8_step y) : x = y := by
  have h1 := crc8_unstep_step_fin ⟨x, hx⟩
  have h2 := crc8_unstep_step_fin ⟨y, hy⟩
  simp only at h1 h2
  rw [← h1, ← h2, h]

theorem crc8_iter_lt {x : Nat} (n : Nat) (hx : x < 256) : crc8_step^[n] x < 256 := by
  induction n generalizing x with
  | zero => simpa using hx
  | succ k ih =>
    rw [Function.iterate_succ_apply]
    exact ih (crc8_step_lt hx)

theorem crc8_iter_inj {x y : Nat} (n : Nat) (hx : x < 256) (hy : y < 256)
    (h : crc8_step^[n] x = crc8_step^[n] y) : x = y := by
  induction n generalizing x y with
  | zero => simpa using h
  | succ k ih =>
    rw [Function.iterate_succ_apply, Function.iterate_succ_apply] at h
    exact crc8_step_inj hx hy (ih (crc8_step_lt hx) (crc8_step_lt hy) h)

theorem crc8_update_lt (c b : Nat) : crc8_update c b < 256 :=
  crc8_iter_lt 8 (Nat.mod_lt _ (by norm_num))

theorem xor_lt_256 {a b : Nat} (ha : a < 256) (hb : b < 256) : a ^^^ b < 256 :=
  Nat.xor_lt_two_pow (n := 8) ha hb

theorem crc8_update_inj {c1 c2 b : Nat} (h1 : c1 < 256) (h2 : c2 < 256) (hb : b < 256)
    (h : crc8_update c1 b = crc8_update c2 b) : c1 = c2 := by
  unfold crc8_update at h
  have e1 : (c1 ^^^ b) % 256 = c1 ^^^ b := Nat.mod_eq_of_lt (xor_lt_256 h1 hb)
  have e2 : (c2 ^^^ b) % 256 = c2 ^^^ b := Nat.mod_eq_of_lt (xor_lt_256 h2 hb)
  rw [e1, e2] at h
  have := crc8_iter_inj 8 (xor_lt_256 h1 hb) (xor_lt_256 h2 hb) h
  have h3 : c1 ^^^ b ^^^ b = c2 ^^^ b ^^^ b := by rw [this]
  simpa [Nat.xor_assoc, Nat.xor_self, Nat.xor_zero] using h3

theorem xor_ne_of_ne {d : Nat} (x : Nat) (hd : d ≠ 0) : x ^^^ d ≠ x := by
  intro h
  apply hd
  have h2 : x ^^^ (x ^^^ d) = x ^^^ x := by rw [h]
  simpa [← Nat.xor_assoc, Nat.xor_self, Nat.zero_xor] using h2

theorem crc8_update_ne {c b d : Nat} (hc : c < 256) (hb : b < 256) (hd1 : d ≠ 0)
    (hd2 : d < 256) : crc8_update c (b ^^^ d) ≠ crc8_update c b := by
  intro h
  unfold crc8_update at h
  have hbd : b ^^^ d < 256 := xor_lt_256 hb hd2
  have e1 : (c ^^^ (b ^^^ d)) % 256 = c ^^^ b ^^^ d := by
    rw [Nat.mod_eq_of_lt (xor_lt_256 hc hbd), Nat.xor_assoc]
  have e2 : (c ^^^ b) % 256 = c ^^^ b := Nat.mod_eq_of_lt (xor_lt_256 hc hb)
  rw [e1, e2] at h
  have := crc8_iter_inj 8 (xor_lt_256 (xor_lt_256 hc hb) hd2) (xor_lt_256 hc hb) h
  exact xor_ne_of_ne _ hd1 this

/-- The CRC-8 fold state stays below 256. -/
theorem crc8_fold_lt (l : List Nat) (c : Nat) (hc : c < 256) :
    l.foldl crc8_update c < 256 := by
  induction l generalizing c with
  | nil => simpa using hc
  | cons b t ih => exact ih _ (crc8_update_lt c b)

/-- Distinct CRC-8 states stay distinct when folding the same byte list. -/
theorem crc8_fold_ne (l : List Nat) (hl : ∀ x ∈ l, x < 256) {c1 c2 : Nat}
    (h1 : c1 < 256) (h2 : c2 < 256) (hne : c1 ≠ c2) :
    l.foldl crc8_update c1 ≠ l.foldl crc8_update c2 := by
  induction l generalizing c1 c2 with
  | nil => simpa using hne
  | cons b t ih =>
    simp only [List.foldl_cons]
    have hb : b < 256 := hl b (by simp)
    refine ih (fun x hx => hl x (by simp [hx])) (crc8_update_lt c1 b)
      (crc8_update_lt c2 b) ?_
    intro h
    exact hne (crc8_update_inj h1 h2 hb h)

/-- Flipping bits of one byte of the list changes the CRC-8 fold result. -/
theorem crc8_fold_set_ne (l : List Nat) (hl : ∀ x ∈ l, x < 256) (c : Nat) (hc : c < 256)
    (i : Nat) (hi : i < l.length) (d : Nat) (hd1 : d ≠ 0) (hd2 : d < 256) :
    (l.set i (l.getD i 0 ^^^ d)).foldl crc8_update c ≠ l.foldl crc8_update c := by
  have hset : l.set i (l.getD i 0 ^^^ d)
      = l.take i ++ (l.getD i 0 ^^^ d) :: l.drop (i + 1) := by
    rw [List.set_eq_take_append_cons_drop]
    simp [hi]
  have hsplit : l = l.take i ++ l.getD i 0 :: l.drop (i + 1) := by
    conv_lhs => rw [← List.take_append_drop i l]
    rw [List.drop_eq_getElem_cons hi, List.getD_eq_getElem l 0 hi]
  rw [hset]
  conv_rhs => rw [hsplit]
  rw [List.foldl_append, List.foldl_append]
  simp only [List.foldl_cons]
  set s := (l.take i).foldl crc8_update c with hs
  have hslt : s < 256 := crc8_fold_lt _ _ hc
  have hbi : l.getD i 0 < 256 := by
    rw [List.getD_eq_getElem l 0 hi]
    exact hl _ (List.getElem_mem hi)
  have hdrop : ∀ x ∈ l.drop (i + 1), x < 256 := fun x hx => hl x (List.mem_of_mem_drop hx)
  exact crc8_fold_ne _ hdrop (crc8_update_lt _ _) (crc8_update_lt _ _)
    (crc8_update_ne hslt hbi hd1 hd2)

theorem xor_255_inj {a b : Nat} (h : 255 ^^^ a = 255 ^^^ b) : a = b := by
  have h2 : 255 ^^^ (255 ^^^ a) = 255 ^^^ (255 ^^^ b) := by rw [h]
  simpa [← Nat.xor_assoc, Nat.xor_self, Nat.zero_xor] using h2

theorem esp_rom_crc8_le_lt (init : Nat) (data : List Nat) :
    esp_rom_crc8_le init data < 256 := by
  unfold esp_rom_crc8_le
  exact xor_lt_256 (by norm_num)
    (crc8_fold_lt _ _ (xor_lt_256 (by norm_num) (Nat.mod_lt _ (by norm_num))))

theorem esp_rom_crc8_le_set_ne (l : List Nat) (hl : ∀ x ∈ l, x < 256)
    (i : Nat) (hi : i < l.length) (d : Nat) (hd1 : d ≠ 0) (hd2 : d < 256) :
    esp_rom_crc8_le 0 (l.set i (l.getD i 0 ^^^ d)) ≠ esp_rom_crc8_le 0 l := by
  unfold esp_rom_crc8_le
  intro h
  exact crc8_fold_set_ne l hl _ (by norm_num) i hi d hd1 hd2 (xor_255_inj h)

/-- Every byte of an encoded frame is a byte value when the header is
well formed and the payload consists of bytes. -/
theorem encode_bytes_lt (h : MessageHeader) (p : List Nat) (hw : h.Wf)
    (hpb : ∀ x ∈ p, x < 256) :
    ∀ x ∈ RealMessageCodec.encode h p, x < 256 := by
  obtain ⟨h1, h2, h3, h4, h5, h6, h7⟩ := hw
  intro x hx
  unfold RealMessageCodec.encode at hx
  by_cases hc : MESSAGE_HEADER_SIZE + p.length + CRC_SIZE > ESP_NOW_MAX_DATA_LEN
  · simp [hc] at hx
  · simp only [if_neg hc] at hx
    rcases List.mem_append.mp hx with hx1 | hx2
    · rcases List.mem_append.mp hx1 with hh | hp2
      · simp only [headerBytes, List.mem_cons, List.not_mem_nil, or_false] at hh
        rcases hh with rfl | rfl | rfl | rfl | rfl | rfl | rfl | rfl | rfl | rfl | rfl | rfl | rfl | rfl | rfl | rfl
        · exact h1
        · exact Nat.mod_lt _ (by norm_num)
        · exact Nat.mod_lt _ (by norm_num)
        · exact h3
        · exact h4
        · exact h5
        · split <;> norm_num
        · exact h6
        all_goals exact Nat.mod_lt _ (by norm_num)
      · exact hpb x hp2
    · simp only [List.mem_singleton] at hx2
      subst hx2
      exact esp_rom_crc8_le_lt 0 _

/-- C3: for every header h, payload p and length n with n + 17 ≤ 250,
encode(h, p, n) returns a byte string b with len(b) = 17 + n,
decode_header(b, len(b)) returns a header equal to h in every field,
and validate_crc(b, len(b)) is true. -/
theorem C3_encode_decode_crc_roundtrip (h : MessageHeader) (p : List Nat)
    (hw : h.Wf) (hp : p.length + 17 ≤ 250) :
    (RealMessageCodec.encode h p).length = 17 + p.length ∧
    RealMessageCodec.decode_header (RealMessageCodec.encode h p)
      (RealMessageCodec.encode h p).length = some h ∧
    RealMessageCodec.validate_crc (RealMessageCodec.encode h p)
      (RealMessageCodec.encode h p).length = true := by
  obtain ⟨h1, h2, h3, h4, h5, h6, h7⟩ := hw
  have hif : ¬ (MESSAGE_HEADER_SIZE + p.length + CRC_SIZE > ESP_NOW_MAX_DATA_LEN) := by
    simp only [MESSAGE_HEADER_SIZE, CRC_SIZE, ESP_NOW_MAX_DATA_LEN]; omega
  have henc : RealMessageCodec.encode h p
      = (headerBytes h ++ p) ++ [esp_rom_crc8_le 0 (headerBytes h ++ p)] := by
    unfold RealMessageCodec.encode
    simp only [if_neg hif]
  have hlenbody : (headerBytes h ++ p).length = 16 + p.length := by
    simp [headerBytes]
    omega
  have hlen : (RealMessageCodec.encode h p).length = 17 + p.length := by
    rw [henc, List.length_append, hlenbody, List.length_singleton]
    omega
  refine ⟨hlen, ?_, ?_⟩
  · rw [hlen, henc]
    unfold RealMessageCodec.decode_header
    rw [if_neg (by simp only [MESSAGE_HEADER_SIZE, CRC_SIZE]; omega)]
    set c := esp_rom_crc8_le 0 (headerBytes h ++ p) with hc
    have hrec : (⟨h.msg_type, h.sequence_number, h.sender_type, h.sender_node_id,
        h.payload_type, h.requires_ack, h.dest_node_id, h.timestamp_ms⟩ : MessageHeader)
        = h := rfl
    rw [← hrec]
    simp only [Option.some.injEq, MessageHeader.mk.injEq]
    have e1 : ((headerBytes h ++ p) ++ [c]).getD 1 0 = h.sequence_number % 256 := rfl
    have e2 : ((headerBytes h ++ p) ++ [c]).getD 2 0 = h.sequence_number / 256 % 256 := rfl
    have e6 : ((headerBytes h ++ p) ++ [c]).getD 6 0 = (if h.requires_ack then 1 else 0) := rfl
    have e8 : ((headerBytes h ++ p) ++ [c]).getD 8 0 = h.timestamp_ms % 256 := rfl
    have e9 : ((headerBytes h ++ p) ++ [c]).getD 9 0 = h.timestamp_ms / 256 % 256 := rfl
    have e10 : ((headerBytes h ++ p) ++ [c]).getD 10 0 = h.timestamp_ms / 65536 % 256 := rfl
    have e11 : ((headerBytes h ++ p) ++ [c]).getD 11 0
        = h.timestamp_ms / 16777216 % 256 := rfl
    have e12 : ((headerBytes h ++ p) ++ [c]).getD 12 0
        = h.timestamp_ms / 4294967296 % 256 := rfl
    have e13 : ((headerBytes h ++ p) ++ [c]).getD 13 0
        = h.timestamp_ms / 1099511627776 % 256 := rfl
    have e14 : ((headerBytes h ++ p) ++ [c]).getD 14 0
        = h.timestamp_ms / 281474976710656 % 256 := rfl
    have e15 : ((headerBytes h ++ p) ++ [c]).getD 15 0
        = h.timestamp_ms / 72057594037927936 % 256 := rfl
    refine ⟨rfl, ?_, rfl, rfl, rfl, ?_, rfl, ?_⟩
    · rw [e1, e2]; omega
    · rw [e6]; cases hra : h.requires_ack <;> simp
    · rw [e8, e9, e10, e11, e12, e13, e14, e15]; omega
  · rw [hlen, henc]
    unfold RealMessageCodec.validate_crc
    rw [if_neg (by simp only [CRC_SIZE]; omega)]
    have hidx : (17 + p.length - 1) = 16 + p.length := by omega
    rw [hidx]
    rw [List.getD_append_right _ _ _ _ (by omega)]
    unfold RealMessageCodec.calculate_crc
    have htake : (17 + p.length - CRC_SIZE) = 16 + p.length := by
      simp only [CRC_SIZE]; omega
    rw [htake, List.take_left' hlenbody]
    simp [hlenbody]

theorem C3_encode_decode_crc_roundtrip_witness :
    (MessageHeader.Wf ⟨16, 4660, 2, 10, 7, true, 1, 123456789⟩) ∧
    ([1, 2, 3] : List Nat).length + 17 ≤ 250 ∧
    ((RealMessageCodec.encode ⟨16, 4660, 2, 10, 7, true, 1, 123456789⟩ [1, 2, 3]).length
        = 17 + ([1, 2, 3] : List Nat).length ∧
      RealMessageCodec.decode_header
        (RealMessageCodec.encode ⟨16, 4660, 2, 10, 7, true, 1, 123456789⟩ [1, 2, 3])
        (RealMessageCodec.encode ⟨16, 4660, 2, 10, 7, true, 1, 123456789⟩ [1, 2, 3]).length
        = some ⟨16, 4660, 2, 10, 7, true, 1, 123456789⟩ ∧
      RealMessageCodec.validate_crc
        (RealMessageCodec.encode ⟨16, 4660, 2, 10, 7, true, 1, 123456789⟩ [1, 2, 3])
        (RealMessageCodec.encode ⟨16, 4660, 2, 10, 7, true, 1, 123456789⟩ [1, 2, 3]).length
        = true) :=
  ⟨by decide, by decide,
   C3_encode_decode_crc_roundtrip ⟨16, 4660, 2, 10, 7, true, 1, 123456789⟩ [1, 2, 3]
     (by decide) (by decide)⟩

/-- C4: for every frame produced by encode, every byte index i and bit
position j < 8, flipping bit j of byte i yields a frame that fails
validate_crc — the CRC-8 detects every single-bit error, including in
the trailing CRC byte. -/
theorem C4_single_bit_error_detected (h : MessageHeader) (p : List Nat) (hw : h.Wf)
    (hp : p.length + 17 ≤ 250) (hpb : ∀ x ∈ p, x < 256)
    (i j : Nat) (hi : i < (RealMessageCodec.encode h p).length) (hj : j < 8) :
    RealMessageCodec.validate_crc
      ((RealMessageCodec.encode h p).set i
        ((RealMessageCodec.encode h p).getD i 0 ^^^ 2 ^ j))
      ((RealMessageCodec.encode h p).set i
        ((RealMessageCodec.encode h p).getD i 0 ^^^ 2 ^ j)).length = false := by
  have hif : ¬ (MESSAGE_HEADER_SIZE + p.length + CRC_SIZE > ESP_NOW_MAX_DATA_LEN) := by
    simp only [MESSAGE_HEADER_SIZE, CRC_SIZE, ESP_NOW_MAX_DATA_LEN]; omega
  have henc : RealMessageCodec.encode h p
      = (headerBytes h ++ p) ++ [esp_rom_crc8_le 0 (headerBytes h ++ p)] := by
    unfold RealMessageCodec.encode
    simp only [if_neg hif]
  set A := headerBytes h ++ p with hA
  set c := esp_rom_crc8_le 0 A with hc
  have hlenA : A.length = 16 + p.length := by
    simp [hA, headerBytes]
    omega
  have hblen : (RealMessageCodec.encode h p).length = A.length + 1 := by
    rw [henc]; simp
  have hd1 : (2 : Nat) ^ j ≠ 0 := by positivity
  have hd2 : (2 : Nat) ^ j < 256 := by
    calc (2 : Nat) ^ j < 2 ^ 8 := Nat.pow_lt_pow_right (by norm_num) hj
    _ = 256 := by norm_num
  have hAb : ∀ x ∈ A, x < 256 := by
    intro x hx
    refine encode_bytes_lt h p hw hpb x ?_
    rw [henc]
    exact List.mem_append.mpr (Or.inl hx)
  rw [List.length_set]
  by_cases hcase : i < A.length
  · have hset : (RealMessageCodec.encode h p).set i
        ((RealMessageCodec.encode h p).getD i 0 ^^^ 2 ^ j)
        = A.set i (A.getD i 0 ^^^ 2 ^ j) ++ [c] := by
      rw [henc, List.set_append, if_pos hcase, List.getD_append _ _ _ _ hcase]
    rw [hset, hblen]
    unfold RealMessageCodec.validate_crc
    rw [if_neg (by simp [CRC_SIZE])]
    have hlenset : (A.set i (A.getD i 0 ^^^ 2 ^ j)).length = A.length := List.length_set ..
    rw [Nat.add_sub_cancel]
    rw [List.getD_append_right _ _ _ _ (by omega)]
    simp only [hlenset, Nat.sub_self]
    unfold RealMessageCodec.calculate_crc
    have : A.length + 1 - CRC_SIZE = A.length := by simp [CRC_SIZE]
    rw [this, List.take_left' hlenset]
    have hne : c ≠ esp_rom_crc8_le 0 (A.set i (A.getD i 0 ^^^ 2 ^ j)) := by
      rw [hc]
      exact fun hcontra =>
        esp_rom_crc8_le_set_ne A hAb i hcase (2 ^ j) hd1 hd2 hcontra.symm
    simpa using beq_eq_false_iff_ne.mpr hne
  · have hieq : i = A.length := by
      rw [hblen] at hi; omega
    subst hieq
    have hset : (RealMessageCodec.encode h p).set A.length
        ((RealMessageCodec.encode h p).getD A.length 0 ^^^ 2 ^ j)
        = A ++ [c ^^^ 2 ^ j] := by
      rw [henc, List.set_append, if_neg (by omega)]
      rw [List.getD_append_right _ _ _ _ (le_refl _)]
      simp
    rw [hset, hblen]
    unfold RealMessageCodec.validate_crc
    rw [if_neg (by simp [CRC_SIZE])]
    rw [Nat.add_sub_cancel]
    rw [List.getD_append_right _ _ _ _ (le_refl _)]
    simp only [Nat.sub_self]
    unfold RealMessageCodec.calculate_crc
    have hlen1 : A.length + 1 - CRC_SIZE = A.length := by simp [CRC_SIZE]
    rw [hlen1, List.take_left]
    have hne : c ^^^ 2 ^ j ≠ c := xor_ne_of_ne c hd1
    rw [← hc]
    simpa using beq_eq_false_iff_ne.mpr hne

theorem C4_single_bit_error_detected_witness :
    (MessageHeader.Wf ⟨16, 4660, 2, 10, 7, true, 1, 123456789⟩) ∧
    ([1, 2, 3] : List Nat).length + 17 ≤ 250 ∧
    (∀ x ∈ ([1, 2, 3] : List Nat), x < 256) ∧
    5 < (RealMessageCodec.encode ⟨16, 4660, 2, 10, 7, true, 1, 123456789⟩ [1, 2, 3]).length ∧
    (3 : Nat) < 8 ∧
    RealMessageCodec.validate_crc
      ((RealMessageCodec.encode ⟨16, 4660, 2, 10, 7, true, 1, 123456789⟩ [1, 2, 3]).set 5
        ((RealMessageCodec.encode ⟨16, 4660, 2, 10, 7, true, 1, 123456789⟩ [1, 2, 3]).getD 5 0
          ^^^ 2 ^ 3))
      ((RealMessageCodec.encode ⟨16, 4660, 2, 10, 7, true, 1, 123456789⟩ [1, 2, 3]).set 5
        ((RealMessageCodec.encode ⟨16, 4660, 2, 10, 7, true, 1, 123456789⟩ [1, 2, 3]).getD 5 0
          ^^^ 2 ^ 3)).length = false :=
  ⟨by decide, by decide, by decide, by decide, by decide,
   C4_single_bit_error_detected ⟨16, 4660, 2, 10, 7, true, 1, 123456789⟩ [1, 2, 3]
     (by decide) (by decide) (by decide) 5 3 (by decide) (by decide)⟩

/-- C2: from IDLE with zero counters, tx_success(requires_ack=true) with
the caller-installed pending ack followed by three physical_fail events
ends in SCANNING with the pending ack cleared; three physical_fail
events from IDLE with no pending ack also end in SCANNING; and after
link_alive in any state both fail counters are zero, so from any
non-SCANNING state it takes exactly three further physical_fail events
to reach SCANNING. -/
theorem C2_tx_state_machine_scanning (pa : PendingAck) (m : TxMachine) :
    ((RealTxStateMachine.on_physical_fail (RealTxStateMachine.on_physical_fail
        (RealTxStateMachine.on_physical_fail (RealTxStateMachine.set_pending_ack
          (RealTxStateMachine.on_tx_success RealTxStateMachine.reset true) pa)))).current_state
        = TxState.SCANNING ∧
     (RealTxStateMachine.on_physical_fail (RealTxStateMachine.on_physical_fail
        (RealTxStateMachine.on_physical_fail (RealTxStateMachine.set_pending_ack
          (RealTxStateMachine.on_tx_success RealTxStateMachine.reset true) pa)))).pending_ack
        = none) ∧
    (RealTxStateMachine.on_physical_fail (RealTxStateMachine.on_physical_fail
      (RealTxStateMachine.on_physical_fail RealTxStateMachine.reset))).current_state
      = TxState.SCANNING ∧
    ((RealTxStateMachine.on_link_alive m).phy_send_fail_count = 0 ∧
     (RealTxStateMachine.on_link_alive m).phy_consecutive_fail_count = 0) ∧
    ((RealTxStateMachine.on_link_alive m).current_state ≠ TxState.SCANNING →
      (RealTxStateMachine.on_physical_fail
        (RealTxStateMachine.on_link_alive m)).current_state ≠ TxState.SCANNING ∧
      (RealTxStateMachine.on_physical_fail (RealTxStateMachine.on_physical_fail
        (RealTxStateMachine.on_link_alive m))).current_state ≠ TxState.SCANNING ∧
      (RealTxStateMachine.on_physical_fail (RealTxStateMachine.on_physical_fail
        (RealTxStateMachine.on_physical_fail
          (RealTxStateMachine.on_link_alive m)))).current_state = TxState.SCANNING) := by
  obtain ⟨st, pend, sf, cf⟩ := m
  refine ⟨?_, ?_, ⟨rfl, rfl⟩, ?_⟩
  · simp [RealTxStateMachine.reset, RealTxStateMachine.on_tx_success,
          RealTxStateMachine.set_pending_ack, RealTxStateMachine.on_physical_fail,
          MAX_LOGICAL_RETRIES, MAX_PHYSICAL_FAILURES]
  · simp [RealTxStateMachine.reset, RealTxStateMachine.on_physical_fail,
          MAX_LOGICAL_RETRIES, MAX_PHYSICAL_FAILURES]
  · intro hst
    simp only [RealTxStateMachine.on_link_alive] at hst ⊢
    cases pend with
    | none =>
      simp [RealTxStateMachine.on_physical_fail, MAX_PHYSICAL_FAILURES]
      exact hst
    | some a =>
      simp [RealTxStateMachine.on_physical_fail, MAX_LOGICAL_RETRIES,
            MAX_PHYSICAL_FAILURES]

theorem C2_tx_state_machine_scanning_witness :
    ((RealTxStateMachine.on_physical_fail (RealTxStateMachine.on_physical_fail
        (RealTxStateMachine.on_physical_fail (RealTxStateMachine.set_pending_ack
          (RealTxStateMachine.on_tx_success RealTxStateMachine.reset true)
          ⟨7, 0, 3, ⟨[1, 2, 3, 4, 5, 6], [0], 1, true⟩, 5⟩)))).current_state
        = TxState.SCANNING ∧
     (RealTxStateMachine.on_physical_fail (RealTxStateMachine.on_physical_fail
        (RealTxStateMachine.on_physical_fail (RealTxStateMachine.set_pending_ack
          (RealTxStateMachine.on_tx_success RealTxStateMachine.reset true)
          ⟨7, 0, 3, ⟨[1, 2, 3, 4, 5, 6], [0], 1, true⟩, 5⟩)))).pending_ack = none) ∧
    ((RealTxStateMachine.on_link_alive
        ⟨TxState.RETRYING, some ⟨7, 0, 3, ⟨[1, 2, 3, 4, 5, 6], [0], 1, true⟩, 5⟩,
         2, 2⟩).phy_send_fail_count = 0 ∧
     (RealTxStateMachine.on_link_alive
        ⟨TxState.RETRYING, some ⟨7, 0, 3, ⟨[1, 2, 3, 4, 5, 6], [0], 1, true⟩, 5⟩,
         2, 2⟩).phy_consecutive_fail_count = 0) ∧
    (RealTxStateMachine.on_physical_fail (RealTxStateMachine.on_link_alive
        ⟨TxState.RETRYING, some ⟨7, 0, 3, ⟨[1, 2, 3, 4, 5, 6], [0], 1, true⟩, 5⟩,
         2, 2⟩)).current_state ≠ TxState.SCANNING ∧
    (RealTxStateMachine.on_physical_fail (RealTxStateMachine.on_physical_fail
      (RealTxStateMachine.on_physical_fail (RealTxStateMachine.on_link_alive
        ⟨TxState.RETRYING, some ⟨7, 0, 3, ⟨[1, 2, 3, 4, 5, 6], [0], 1, true⟩, 5⟩,
         2, 2⟩)))).current_state = TxState.SCANNING := by
  have h := C2_tx_state_machine_scanning
    ⟨7, 0, 3, ⟨[1, 2, 3, 4, 5, 6], [0], 1, true⟩, 5⟩
    ⟨TxState.RETRYING, some ⟨7, 0, 3, ⟨[1, 2, 3, 4, 5, 6], [0], 1, true⟩, 5⟩, 2, 2⟩
  exact ⟨h.1, h.2.2.1, (h.2.2.2 (by decide)).1, (h.2.2.2 (by decide)).2.2⟩

/-- C1 counterexample: with the table already holding MAX_PEERS = 19
records and a new id, a failing esp_now_add_peer makes add return the
radio error, yet the table is not left as it was — the LRU victim was
already popped before the radio call. -/
theorem C1_full_table_radio_error_counterexample :
    (RealPeerManager.add ⟨EspErr.fail, EspErr.ok, EspErr.ok⟩
      ⟨(List.range 19).map (fun k =>
        ⟨[0, 0, 0, 0, 0, k], 2, 100 + k, 1, 0, true, 0⟩), []⟩
      200 (some [9, 9, 9, 9, 9, 9]) 1 2 0).2 = EspErr.fail ∧
    (RealPeerManager.add ⟨EspErr.fail, EspErr.ok, EspErr.ok⟩
      ⟨(List.range 19).map (fun k =>
        ⟨[0, 0, 0, 0, 0, k], 2, 100 + k, 1, 0, true, 0⟩), []⟩
      200 (some [9, 9, 9, 9, 9, 9]) 1 2 0).1.peers
      ≠ (List.range 19).map (fun k =>
        (⟨[0, 0, 0, 0, 0, k], 2, 100 + k, 1, 0, true, 0⟩ : PeerInfo)) := by decide

/-- C1 amended: add(id, mac, ...) with a null mac returns INVALID_ARG
with the table unchanged; when the radio abstraction fails, the call
returns that error and the table is left exactly as it was — except in
the one case where the table already holds MAX_PEERS records and id is
new: there the LRU victim is evicted before the radio add is attempted,
so the error is still returned (and nothing is persisted) but the
eviction is retained. -/
theorem C1_add_error_paths_amended (radio : RealPeerManager.RadioResults)
    (st : RealPeerManager.PmState) (id : Nat)
    (channel type heartbeat_interval_ms : Nat) :
    (RealPeerManager.add radio st id none channel type heartbeat_interval_ms
      = (st, EspErr.invalidArg)) ∧
    (∀ m, (RealPeerManager.add radio st id (some m) channel type
        heartbeat_interval_ms).2 ≠ EspErr.ok →
      ¬ (st.peers.findIdx? (fun p => p.node_id == id) = none ∧
         MAX_PEERS ≤ st.peers.length) →
      (RealPeerManager.add radio st id (some m) channel type
        heartbeat_interval_ms).1 = st) ∧
    (∀ m, (RealPeerManager.add radio st id (some m) channel type
        heartbeat_interval_ms).2 ≠ EspErr.ok →
      st.peers.findIdx? (fun p => p.node_id == id) = none →
      MAX_PEERS ≤ st.peers.length →
      (RealPeerManager.add radio st id (some m) channel type
        heartbeat_interval_ms).1.peers = st.peers.dropLast ∧
      (RealPeerManager.add radio st id (some m) channel type
        heartbeat_interval_ms).1.saves = st.saves ∧
      (RealPeerManager.add radio st id (some m) channel type
        heartbeat_interval_ms).2 = radio.add_peer) := by
  refine ⟨rfl, ?_, ?_⟩
  · intro m hr hnf
    unfold RealPeerManager.add at hr ⊢
    cases hf : st.peers.findIdx? (fun p => p.node_id == id) with
    | some i =>
      rw [hf] at hr
      dsimp only at hr ⊢
      by_cases hres : (if (st.peers.getD i default).mac ≠ m then
          (if radio.add_peer = EspErr.ok then radio.del_peer else radio.add_peer)
        else if (st.peers.getD i default).channel ≠ channel then radio.mod_peer
        else EspErr.ok) = EspErr.ok
      · rw [if_pos hres] at hr
        exact absurd rfl hr
      · rw [if_neg hres]
    | none =>
      rw [hf] at hr
      dsimp only at hr ⊢
      have hnotfull : ¬ MAX_PEERS ≤ st.peers.length := fun hfull => hnf ⟨hf, hfull⟩
      rw [if_neg hnotfull] at hr ⊢
      by_cases hadd : radio.add_peer = EspErr.ok
      · rw [if_pos hadd] at hr
        exact absurd rfl hr
      · rw [if_neg hadd]
  · intro m hr hf hfull
    unfold RealPeerManager.add at hr ⊢
    rw [hf] at hr ⊢
    dsimp only at hr ⊢
    rw [if_pos hfull] at hr ⊢
    by_cases hadd : radio.add_peer = EspErr.ok
    · rw [if_pos hadd] at hr
      exact absurd rfl hr
    · rw [if_neg hadd]
      exact ⟨rfl, rfl, rfl⟩

theorem C1_add_error_paths_amended_witness :
    (RealPeerManager.add ⟨EspErr.fail, EspErr.ok, EspErr.ok⟩
      ⟨[⟨[1, 2, 3, 4, 5, 6], 2, 7, 1, 0, true, 0⟩], []⟩ 7 none 5 2 0
      = (⟨[⟨[1, 2, 3, 4, 5, 6], 2, 7, 1, 0, true, 0⟩], []⟩, EspErr.invalidArg)) ∧
    (RealPeerManager.add ⟨EspErr.fail, EspErr.ok, EspErr.ok⟩
      ⟨[⟨[1, 2, 3, 4, 5, 6], 2, 7, 1, 0, true, 0⟩], []⟩ 7
      (some [9, 9, 9, 9, 9, 9]) 5 2 0).1
      = ⟨[⟨[1, 2, 3, 4, 5, 6], 2, 7, 1, 0, true, 0⟩], []⟩ := by
  have h := C1_add_error_paths_amended ⟨EspErr.fail, EspErr.ok, EspErr.ok⟩
    ⟨[⟨[1, 2, 3, 4, 5, 6], 2, 7, 1, 0, true, 0⟩], []⟩ 7 5 2 0
  exact ⟨h.1, h.2.1 [9, 9, 9, 9, 9, 9] (by decide) (by decide)⟩

/-- C9: for every remove(id) call with id present at index i of the peer
table, the record is erased and a snapshot with the removed record's
channel is persisted even when the radio delete fails; the radio delete
result is returned, so an error result can still leave the table
mutated. -/
theorem C9_remove_erases_and_persists_despite_radio_error
    (radio : RealPeerManager.RadioResults) (st : RealPeerManager.PmState)
    (id i : Nat)
    (hfind : st.peers.findIdx? (fun p => p.node_id == id) = some i) :
    (RealPeerManager.remove radio st id).2 = radio.del_peer ∧
    (RealPeerManager.remove radio st id).1.peers = st.peers.eraseIdx i ∧
    (RealPeerManager.remove radio st id).1.peers.length + 1 = st.peers.length ∧
    (RealPeerManager.remove radio st id).1.saves
      = st.saves ++ [((st.peers.getD i default).channel,
          (st.peers.eraseIdx i).map RealPeerManager.info_to_persistent)] := by
  have hi : i < st.peers.length :=
    (List.findIdx?_eq_some_iff_findIdx_eq.mp hfind).1
  unfold RealPeerManager.remove
  rw [hfind]
  refine ⟨rfl, rfl, ?_, rfl⟩
  simp [RealPeerManager.save_to_storage, List.length_eraseIdx, hi]
  omega

theorem C9_remove_erases_and_persists_despite_radio_error_witness :
    ([(⟨[1, 1, 1, 1, 1, 1], 2, 7, 4, 0, true, 0⟩ : PeerInfo),
      ⟨[2, 2, 2, 2, 2, 2], 2, 8, 6, 0, true, 0⟩].findIdx?
        (fun p => p.node_id == 8) = some 1) ∧
    ((RealPeerManager.remove ⟨EspErr.ok, EspErr.fail, EspErr.ok⟩
        ⟨[⟨[1, 1, 1, 1, 1, 1], 2, 7, 4, 0, true, 0⟩,
          ⟨[2, 2, 2, 2, 2, 2], 2, 8, 6, 0, true, 0⟩], []⟩ 8).2 = EspErr.fail ∧
     (RealPeerManager.remove ⟨EspErr.ok, EspErr.fail, EspErr.ok⟩
        ⟨[⟨[1, 1, 1, 1, 1, 1], 2, 7, 4, 0, true, 0⟩,
          ⟨[2, 2, 2, 2, 2, 2], 2, 8, 6, 0, true, 0⟩], []⟩ 8).1.peers.length + 1 = 2) := by
  have h := C9_remove_erases_and_persists_despite_radio_error
    ⟨EspErr.ok, EspErr.fail, EspErr.ok⟩
    ⟨[⟨[1, 1, 1, 1, 1, 1], 2, 7, 4, 0, true, 0⟩,
      ⟨[2, 2, 2, 2, 2, 2], 2, 8, 6, 0, true, 0⟩], []⟩ 8 1 (by decide)
  exact ⟨by decide, h.1, h.2.2.1⟩

open RealChannelScanner

/-- Encoding the 17-byte probe frame never fails, so the per-channel
continue branch of the scan loop is dead. -/
theorem encodeProbe_not_empty (a b : Nat) :
    (RealMessageCodec.encode (probeHeader a b) []).isEmpty = false := by
  unfold RealMessageCodec.encode
  rw [if_neg (by simp [MESSAGE_HEADER_SIZE, CRC_SIZE, ESP_NOW_MAX_DATA_LEN])]
  simp [headerBytes]

theorem scanAux_no_signal (sig : Nat → Nat → Bool) (mi mt cur : Nat)
    (hs : ∀ ch, signalled sig ch = false) :
    ∀ fuel offset, scanAux sig mi mt cur offset fuel
      = ((List.range fuel).map (fun k => chanAt cur (offset + k)), cur, false) := by
  intro fuel
  induction fuel with
  | zero => intro offset; simp [scanAux]
  | succ f ih =>
    intro offset
    rw [scanAux, encodeProbe_not_empty]
    simp only [Bool.false_eq_true, if_false, hs]
    rw [ih (offset + 1)]
    rw [List.range_succ_eq_map]
    simp only [List.map_cons, List.map_map]
    have hfun : ((fun k => chanAt cur (offset + k)) ∘ Nat.succ)
        = (fun k => chanAt cur (offset + 1 + k)) := by
      funext k
      simp only [Function.comp_apply]
      congr 1
      omega
    rw [hfun]
    norm_num

theorem scanAux_hit (sig : Nat → Nat → Bool) (mi mt cur : Nat) :
    ∀ n fuel offset, n < fuel →
      signalled sig (chanAt cur (offset + n)) = true →
      (∀ k, k < n → signalled sig (chanAt cur (offset + k)) = false) →
      scanAux sig mi mt cur offset fuel
        = ((List.range (n + 1)).map (fun k => chanAt cur (offset + k)),
           chanAt cur (offset + n), true) := by
  intro n
  induction n with
  | zero =>
    intro fuel offset hn hsig _
    match fuel, hn with
    | f + 1, _ =>
      rw [scanAux, encodeProbe_not_empty]
      simp only [Bool.false_eq_true, if_false]
      rw [Nat.add_zero] at hsig
      rw [hsig]
      simp [List.range_succ]
  | succ k ih =>
    intro fuel offset hn hsig hbelow
    match fuel, hn with
    | f + 1, hn =>
      rw [scanAux, encodeProbe_not_empty]
      simp only [Bool.false_eq_true, if_false]
      have h0 : signalled sig (chanAt cur offset) = false := by
        have := hbelow 0 (Nat.succ_pos k)
        rwa [Nat.add_zero] at this
      rw [h0]
      simp only [Bool.false_eq_true, if_false]
      have hrec := ih f (offset + 1) (by omega)
        (by rw [show offset + 1 + k = offset + (k + 1) by omega]; exact hsig)
        (fun j hj => by
          rw [show offset + 1 + j = offset + (j + 1) by omega]
          exact hbelow (j + 1) (by omega))
      rw [hrec]
      have hfun : ((fun j => chanAt cur (offset + j)) ∘ Nat.succ)
          = (fun j => chanAt cur (offset + 1 + j)) := by
        funext j
        simp only [Function.comp_apply]
        congr 1
        omega
      rw [List.range_succ_eq_map (k + 1)]
      simp only [List.map_cons, List.map_map, hfun]
      have e1 : chanAt cur offset = chanAt cur (offset + 0) := by norm_num
      have e2 : offset + 1 + k = offset + (k + 1) := by omega
      rw [e1, e2]

theorem scanAux_trace_shape (sig : Nat → Nat → Bool) (mi mt cur : Nat) :
    ∀ fuel offset, ∃ m, m ≤ fuel ∧
      (scanAux sig mi mt cur offset fuel).1
        = (List.range m).map (fun k => chanAt cur (offset + k)) := by
  intro fuel
  induction fuel with
  | zero => intro offset; exact ⟨0, by simp [scanAux]⟩
  | succ f ih =>
    intro offset
    rw [scanAux, encodeProbe_not_empty]
    simp only [Bool.false_eq_true, if_false]
    by_cases hsig : signalled sig (chanAt cur offset) = true
    · rw [hsig]
      refine ⟨1, by omega, ?_⟩
      simp [List.range_succ]
    · rw [Bool.not_eq_true] at hsig
      rw [hsig]
      simp only [Bool.false_eq_true, if_false]
      obtain ⟨m, hm, he⟩ := ih (offset + 1)
      refine ⟨m + 1, by omega, ?_⟩
      simp only [he]
      rw [List.range_succ_eq_map m]
      simp only [List.map_cons, List.map_map]
      have hfun : ((fun k => chanAt cur (offset + k)) ∘ Nat.succ)
          = (fun k => chanAt cur (offset + 1 + k)) := by
        funext j
        simp only [Function.comp_apply]
        congr 1
        omega
      rw [hfun]
      norm_num

theorem chanAt_injOn (c : Nat) :
    ∀ k1, k1 < 13 → ∀ k2, k2 < 13 → chanAt c k1 = chanAt c k2 → k1 = k2 := by
  intro k1 h1 k2 h2 he
  unfold chanAt at he
  omega

theorem normChannel_bounds (start : Nat) :
    1 ≤ normChannel start ∧ normChannel start ≤ 13 := by
  unfold normChannel
  split <;> omega

open RealChannelScanner in
/-- C6: scan(start_channel) visits channels in the order
((start-1+k) mod 13)+1, calling set_channel exactly once per attempted
channel; a start outside 1..13 is treated as 1; with a radio that never
signals, set_channel is called exactly 13 times and the result is
(hub_found=false, channel=normalized start); when the radio first
signals on the n-th attempted channel, the result is hub_found=true on
that channel and no later channel is attempted. -/
theorem C6_channel_scan_order (start : Nat) (sig : Nat → Nat → Bool) (my_node_id my_node_type : Nat) :
    (normChannel start = if 1 ≤ start ∧ start ≤ 13 then start else 1) ∧
    (∃ m, m ≤ 13 ∧
      (scan sig my_node_id my_node_type start).1
        = (List.range m).map (fun k => chanAt (normChannel start) k) ∧
      (scan sig my_node_id my_node_type start).1.Nodup) ∧
    ((∀ ch a, sig ch a = false) →
      (scan sig my_node_id my_node_type start).1.length = 13 ∧
      (scan sig my_node_id my_node_type start).2 = (normChannel start, false)) ∧
    (∀ n, n < 13 →
      signalled sig (chanAt (normChannel start) n) = true →
      (∀ k, k < n → signalled sig (chanAt (normChannel start) k) = false) →
      (scan sig my_node_id my_node_type start).1
        = (List.range (n + 1)).map (fun k => chanAt (normChannel start) k) ∧
      (scan sig my_node_id my_node_type start).2
        = (chanAt (normChannel start) n, true)) := by
  set c := normChannel start with hcdef
  have hscan : scan sig my_node_id my_node_type start
      = scanAux sig my_node_id my_node_type c 0 13 := rfl
  refine ⟨?_, ?_, ?_, ?_⟩
  · rw [hcdef]
    unfold normChannel
    split_ifs <;> omega
  · obtain ⟨m, hm, he⟩ := scanAux_trace_shape sig my_node_id my_node_type c 13 0
    have hzero : (fun k => chanAt c (0 + k)) = (fun k => chanAt c k) := by
      funext k
      norm_num
    rw [hzero] at he
    rw [hscan]
    refine ⟨m, hm, he, ?_⟩
    rw [he]
    refine List.Nodup.map_on ?_ (List.nodup_range m)
    intro k1 h1 k2 h2
    simp only [List.mem_range] at h1 h2
    exact chanAt_injOn c k1 (by omega) k2 (by omega)
  · intro hnone
    have hs : ∀ ch, signalled sig ch = false := by
      intro ch
      simp [signalled, hnone]
    rw [hscan, scanAux_no_signal sig my_node_id my_node_type c hs 13 0]
    simp
  · intro n hn hsig hbelow
    rw [hscan]
    have hsig0 : signalled sig (chanAt c (0 + n)) = true := by
      rwa [Nat.zero_add]
    have hbelow0 : ∀ k, k < n → signalled sig (chanAt c (0 + k)) = false := by
      intro k hk
      rw [Nat.zero_add]
      exact hbelow k hk
    rw [scanAux_hit sig my_node_id my_node_type c n 13 0 hn hsig0 hbelow0]
    have hzero : (fun k => chanAt c (0 + k)) = (fun k => chanAt c k) := by
      funext k
      norm_num
    rw [hzero, Nat.zero_add]
    exact ⟨rfl, rfl⟩

theorem C6_channel_scan_order_witness :
    ((RealChannelScanner.scan (fun _ _ => false) 5 2 0).1.length = 13 ∧
     (RealChannelScanner.scan (fun _ _ => false) 5 2 0).2 = (normChannel 0, false)) ∧
    ((RealChannelScanner.scan (fun ch _ => ch == 3) 5 2 1).1
        = (List.range 3).map (fun k => chanAt (normChannel 1) k) ∧
     (RealChannelScanner.scan (fun ch _ => ch == 3) 5 2 1).2
        = (chanAt (normChannel 1) 2, true)) := by
  have h1 := C6_channel_scan_order 0 (fun _ _ => false) 5 2
  have h2 := C6_channel_scan_order 1 (fun ch _ => ch == 3) 5 2
  exact ⟨h1.2.2.1 (fun _ _ => rfl),
         h2.2.2.2 2 (by decide) (by decide) (by decide)⟩

theorem calculate_crc_crc_irrel (d : PersistentData) (c : Nat) :
    EspNowStorage.calculate_crc { d with crc := c } = EspNowStorage.calculate_crc d := rfl

theorem mkBlob_crc_eq (ch : Nat) (ps : List PersistentPeer) :
    EspNowStorage.calculate_crc (EspNowStorage.mkBlob ch ps)
      = (EspNowStorage.mkBlob ch ps).crc := rfl

theorem validData_mkBlob (ch : Nat) (ps : List PersistentPeer) :
    EspNowStorage.validData (EspNowStorage.mkBlob ch ps) = true := by
  have h1 : (EspNowStorage.mkBlob ch ps).magic = ESPNOW_STORAGE_MAGIC := rfl
  have h2 : (EspNowStorage.mkBlob ch ps).version = ESPNOW_STORAGE_VERSION := rfl
  unfold EspNowStorage.validData
  rw [h1, h2, mkBlob_crc_eq]
  simp

theorem validData_crc_altered (ch : Nat) (ps : List PersistentPeer) (c : Nat)
    (hc : c ≠ (EspNowStorage.mkBlob ch ps).crc) :
    EspNowStorage.validData { EspNowStorage.mkBlob ch ps with crc := c } = false := by
  have h1 : ({ EspNowStorage.mkBlob ch ps with crc := c }).magic
      = ESPNOW_STORAGE_MAGIC := rfl
  have h2 : ({ EspNowStorage.mkBlob ch ps with crc := c }).version
      = ESPNOW_STORAGE_VERSION := rfl
  have h3 : ({ EspNowStorage.mkBlob ch ps with crc := c }).crc = c := rfl
  unfold EspNowStorage.validData
  rw [h1, h2, h3, calculate_crc_crc_irrel, mkBlob_crc_eq]
  rw [show (c == (EspNowStorage.mkBlob ch ps).crc) = false from
    beq_eq_false_iff_ne.mpr hc]
  simp

theorem save_rtc_eq (st : EspNowStorage.StorageState) (ch : Nat)
    (ps : List PersistentPeer) (force : Bool) :
    (EspNowStorage.save st ch ps force).1.rtc = some (EspNowStorage.mkBlob ch ps) ∧
    (EspNowStorage.save st ch ps force).2 = EspErr.ok := by
  unfold EspNowStorage.save
  by_cases h : st.rtc = some (EspNowStorage.mkBlob ch ps)
  · rw [if_pos h]
    cases force
    · exact ⟨h, rfl⟩
    · exact ⟨h, rfl⟩
  · rw [if_neg h]
    exact ⟨rfl, rfl⟩

theorem save_force_eq (st : EspNowStorage.StorageState) (ch : Nat)
    (ps : List PersistentPeer) :
    EspNowStorage.save st ch ps true
      = (⟨some (EspNowStorage.mkBlob ch ps), some (EspNowStorage.mkBlob ch ps)⟩,
         EspErr.ok) := by
  unfold EspNowStorage.save
  by_cases h : st.rtc = some (EspNowStorage.mkBlob ch ps)
  · rw [if_pos h]
    have : ({ st with nvs := some (EspNowStorage.mkBlob ch ps) }
        : EspNowStorage.StorageState)
        = ⟨some (EspNowStorage.mkBlob ch ps), some (EspNowStorage.mkBlob ch ps)⟩ := by
      rw [← h]
    simp [this]
  · rw [if_neg h]

theorem load_rtc_valid (st : EspNowStorage.StorageState) (d : PersistentData)
    (hrtc : st.rtc = some d) (hv : EspNowStorage.validData d = true) :
    EspNowStorage.load st = (st, some (d.wifi_channel, d.peers.take d.num_peers)) := by
  unfold EspNowStorage.load
  rw [hrtc]
  simp [hv]

theorem load_rtc_invalid_nvs_valid (st : EspNowStorage.StorageState)
    (d0 d : PersistentData) (hrtc : st.rtc = some d0)
    (hv0 : EspNowStorage.validData d0 = false) (hnvs : st.nvs = some d)
    (hv : EspNowStorage.validData d = true) :
    EspNowStorage.load st
      = ({ st with rtc := some d }, some (d.wifi_channel, d.peers.take d.num_peers)) := by
  unfold EspNowStorage.load EspNowStorage.loadNvs
  rw [hrtc, hnvs]
  simp [hv0, hv]

theorem load_both_invalid (st : EspNowStorage.StorageState)
    (d0 d1 : PersistentData) (hrtc : st.rtc = some d0)
    (hv0 : EspNowStorage.validData d0 = false) (hnvs : st.nvs = some d1)
    (hv1 : EspNowStorage.validData d1 = false) :
    EspNowStorage.load st = (st, none) := by
  unfold EspNowStorage.load EspNowStorage.loadNvs
  rw [hrtc, hnvs]
  simp [hv0, hv1]

theorem mkBlob_peers_take (ch : Nat) (ps : List PersistentPeer) :
    (EspNowStorage.mkBlob ch ps).peers.take (EspNowStorage.mkBlob ch ps).num_peers
      = ps.take (min ps.length MAX_PERSISTENT_PEERS) := by
  have hnum : (EspNowStorage.mkBlob ch ps).num_peers
      = min ps.length MAX_PERSISTENT_PEERS := rfl
  have hpeers : (EspNowStorage.mkBlob ch ps).peers
      = ps.take MAX_PERSISTENT_PEERS ++
        List.replicate (MAX_PERSISTENT_PEERS - min ps.length MAX_PERSISTENT_PEERS)
          zeroPersistentPeer := rfl
  rw [hnum, hpeers]
  by_cases hle : ps.length ≤ MAX_PERSISTENT_PEERS
  · have hmin : min ps.length MAX_PERSISTENT_PEERS = ps.length := by omega
    rw [hmin]
    have htk : ps.take MAX_PERSISTENT_PEERS = ps := List.take_of_length_le hle
    rw [htk]
    rw [List.take_append_of_le_length (le_refl _)]
  · have hmin : min ps.length MAX_PERSISTENT_PEERS = MAX_PERSISTENT_PEERS := by omega
    rw [hmin, Nat.sub_self, List.replicate_zero, List.append_nil]
    rw [List.take_take]
    simp

theorem map_persistent_roundtrip (peers : List PeerInfo) :
    (peers.map RealPeerManager.info_to_persistent).map RealPeerManager.persistent_to_info
      = peers.map (fun p => { p with last_seen_ms := 0 }) := by
  rw [List.map_map]
  rfl


theorem load_from_storage_of_load_some (stg stg2 : EspNowStorage.StorageState)
    (ch : Nat) (sps : List PersistentPeer) (peers : List PeerInfo) (wch : Nat)
    (h : EspNowStorage.load stg = (stg2, some (ch, sps))) :
    RealPeerManager.load_from_storage stg peers wch
      = (stg2, sps.map RealPeerManager.persistent_to_info, ch, EspErr.ok) := by
  unfold RealPeerManager.load_from_storage
  rw [h]

theorem load_from_storage_of_load_none (stg stg2 : EspNowStorage.StorageState)
    (peers : List PeerInfo) (wch : Nat)
    (h : EspNowStorage.load stg = (stg2, none)) :
    RealPeerManager.load_from_storage stg peers wch
      = (stg2, peers, wch, EspErr.notFound) := by
  unfold RealPeerManager.load_from_storage
  rw [h]

theorem blob_take_map (ch : Nat) (peers : List PeerInfo)
    (hlen : peers.length ≤ MAX_PEERS) :
    ((EspNowStorage.mkBlob ch (peers.map RealPeerManager.info_to_persistent)).peers.take
        (EspNowStorage.mkBlob ch (peers.map RealPeerManager.info_to_persistent)).num_peers).map
        RealPeerManager.persistent_to_info
      = peers.map (fun p => { p with last_seen_ms := 0 }) := by
  rw [mkBlob_peers_take]
  have hmlen : (peers.map RealPeerManager.info_to_persistent).length = peers.length :=
    List.length_map ..
  have hmin : min (peers.map RealPeerManager.info_to_persistent).length
      MAX_PERSISTENT_PEERS = (peers.map RealPeerManager.info_to_persistent).length := by
    rw [hmlen]
    simp only [MAX_PERSISTENT_PEERS]
    simp only [MAX_PEERS] at hlen
    omega
  rw [hmin, List.take_length, map_persistent_roundtrip]

/-- C5 amended: persist(ch) writes the same blob to both tiers; loading
it into a fresh peer table restores the peers in order with every
persisted field intact and last_seen_ms reset to 0 (the persistent
record does not carry last_seen_ms), and ch2 = ch; if the stored blob's
crc32 is altered in both tiers, load returns NOT_FOUND and the fresh
table stays empty; load always tries the fast tier first and falls back
to the slow tier (mirroring a valid slow blob into the fast tier) only
when the fast blob fails the magic/version/crc check. -/
theorem C5_persist_load_roundtrip_amended (st0 : EspNowStorage.StorageState)
    (ch : Nat) (peers : List PeerInfo) (hlen : peers.length ≤ MAX_PEERS) :
    (RealPeerManager.persist st0 peers ch
      = (⟨some (EspNowStorage.mkBlob ch (peers.map RealPeerManager.info_to_persistent)),
          some (EspNowStorage.mkBlob ch (peers.map RealPeerManager.info_to_persistent))⟩,
         EspErr.ok)) ∧
    (RealPeerManager.load_from_storage
        ⟨some (EspNowStorage.mkBlob ch (peers.map RealPeerManager.info_to_persistent)),
         some (EspNowStorage.mkBlob ch (peers.map RealPeerManager.info_to_persistent))⟩ [] 0
      = (⟨some (EspNowStorage.mkBlob ch (peers.map RealPeerManager.info_to_persistent)),
          some (EspNowStorage.mkBlob ch (peers.map RealPeerManager.info_to_persistent))⟩,
         peers.map (fun p => { p with last_seen_ms := 0 }), ch, EspErr.ok)) ∧
    (∀ c, c ≠ (EspNowStorage.mkBlob ch (peers.map RealPeerManager.info_to_persistent)).crc →
      RealPeerManager.load_from_storage
        ⟨some { EspNowStorage.mkBlob ch (peers.map RealPeerManager.info_to_persistent)
                  with crc := c },
         some { EspNowStorage.mkBlob ch (peers.map RealPeerManager.info_to_persistent)
                  with crc := c }⟩ [] 0
      = (⟨some { EspNowStorage.mkBlob ch (peers.map RealPeerManager.info_to_persistent)
                  with crc := c },
          some { EspNowStorage.mkBlob ch (peers.map RealPeerManager.info_to_persistent)
                  with crc := c }⟩, [], 0, EspErr.notFound)) ∧
    (∀ st d, st.rtc = some d → EspNowStorage.validData d = true →
      EspNowStorage.load st = (st, some (d.wifi_channel, d.peers.take d.num_peers))) ∧
    (∀ st d0 d, st.rtc = some d0 → EspNowStorage.validData d0 = false →
      st.nvs = some d → EspNowStorage.validData d = true →
      EspNowStorage.load st
        = ({ st with rtc := some d }, some (d.wifi_channel, d.peers.take d.num_peers))) := by
  refine ⟨?_, ?_, ?_, ?_, ?_⟩
  · unfold RealPeerManager.persist
    exact save_force_eq st0 ch (peers.map RealPeerManager.info_to_persistent)
  · have hload := load_rtc_valid
      ⟨some (EspNowStorage.mkBlob ch (peers.map RealPeerManager.info_to_persistent)),
       some (EspNowStorage.mkBlob ch (peers.map RealPeerManager.info_to_persistent))⟩
      (EspNowStorage.mkBlob ch (peers.map RealPeerManager.info_to_persistent))
      rfl (validData_mkBlob ch (peers.map RealPeerManager.info_to_persistent))
    have h1 := load_from_storage_of_load_some _ _ _ _ [] 0 hload
    rw [blob_take_map ch peers hlen] at h1
    rw [show (EspNowStorage.mkBlob ch
        (peers.map RealPeerManager.info_to_persistent)).wifi_channel = ch from rfl] at h1
    exact h1
  · intro c hc
    have hload := load_both_invalid
      ⟨some { EspNowStorage.mkBlob ch (peers.map RealPeerManager.info_to_persistent)
                with crc := c },
       some { EspNowStorage.mkBlob ch (peers.map RealPeerManager.info_to_persistent)
                with crc := c }⟩ _ _ rfl
      (validData_crc_altered ch (peers.map RealPeerManager.info_to_persistent) c hc) rfl
      (validData_crc_altered ch (peers.map RealPeerManager.info_to_persistent) c hc)
    exact load_from_storage_of_load_none _ _ [] 0 hload
  · intro st d hrtc hv
    exact load_rtc_valid st d hrtc hv
  · intro st d0 d hrtc hv0 hnvs hv
    exact load_rtc_invalid_nvs_valid st d0 d hrtc hv0 hnvs hv

/-- C5 counterexample: a peer whose last_seen_ms is 5 does not survive a
persist/load round trip unchanged — the reloaded record differs (its
last_seen_ms is 0), so the claim that the fresh table holds the same
peers is false as stated. -/
theorem C5_last_seen_counterexample :
    (RealPeerManager.load_from_storage
       (RealPeerManager.persist ⟨none, none⟩
         [⟨[1, 2, 3, 4, 5, 6], 2, 10, 1, 5, true, 1000⟩] 7).1
       [] 0).2.1 ≠ [(⟨[1, 2, 3, 4, 5, 6], 2, 10, 1, 5, true, 1000⟩ : PeerInfo)] := by
  have hp : (RealPeerManager.persist ⟨none, none⟩
      [(⟨[1, 2, 3, 4, 5, 6], 2, 10, 1, 5, true, 1000⟩ : PeerInfo)] 7).1
      = ⟨some (EspNowStorage.mkBlob 7
          ([(⟨[1, 2, 3, 4, 5, 6], 2, 10, 1, 5, true, 1000⟩ : PeerInfo)].map
            RealPeerManager.info_to_persistent)),
         some (EspNowStorage.mkBlob 7
          ([(⟨[1, 2, 3, 4, 5, 6], 2, 10, 1, 5, true, 1000⟩ : PeerInfo)].map
            RealPeerManager.info_to_persistent))⟩ := by
    unfold RealPeerManager.persist
    rw [save_force_eq]
  rw [hp]
  have hload := load_rtc_valid
    ⟨some (EspNowStorage.mkBlob 7
        ([(⟨[1, 2, 3, 4, 5, 6], 2, 10, 1, 5, true, 1000⟩ : PeerInfo)].map
          RealPeerManager.info_to_persistent)),
     some (EspNowStorage.mkBlob 7
        ([(⟨[1, 2, 3, 4, 5, 6], 2, 10, 1, 5, true, 1000⟩ : PeerInfo)].map
          RealPeerManager.info_to_persistent))⟩
    (EspNowStorage.mkBlob 7
        ([(⟨[1, 2, 3, 4, 5, 6], 2, 10, 1, 5, true, 1000⟩ : PeerInfo)].map
          RealPeerManager.info_to_persistent))
    rfl (validData_mkBlob 7
    ([(⟨[1, 2, 3, 4, 5, 6], 2, 10, 1, 5, true, 1000⟩ : PeerInfo)].map
      RealPeerManager.info_to_persistent))
  have h1 := load_from_storage_of_load_some _ _ _ _ [] 0 hload
  rw [blob_take_map 7 [⟨[1, 2, 3, 4, 5, 6], 2, 10, 1, 5, true, 1000⟩] (by decide)] at h1
  rw [h1]
  decide

theorem xor_lt_4294967296 {a b : Nat} (ha : a < 4294967296) (hb : b < 4294967296) :
    a ^^^ b < 4294967296 := by
  have e : (4294967296 : Nat) = 2 ^ 32 := by norm_num
  rw [e] at ha hb ⊢
  exact Nat.xor_lt_two_pow ha hb

theorem crc32_step_lt {x : Nat} (hx : x < 4294967296) : crc32_step x < 4294967296 := by
  unfold crc32_step
  split
  · exact xor_lt_4294967296 (by omega) (by norm_num)
  · omega

theorem crc32_iter_lt {x : Nat} (n : Nat) (hx : x < 4294967296) :
    crc32_step^[n] x < 4294967296 := by
  induction n generalizing x with
  | zero => simpa using hx
  | succ k ih =>
    rw [Function.iterate_succ_apply]
    exact ih (crc32_step_lt hx)

theorem crc32_update_lt (c b : Nat) : crc32_update c b < 4294967296 :=
  crc32_iter_lt 8 (Nat.mod_lt _ (by norm_num))

theorem crc32_fold_lt (l : List Nat) (c : Nat) (hc : c < 4294967296) :
    l.foldl crc32_update c < 4294967296 := by
  induction l generalizing c with
  | nil => simpa using hc
  | cons b t ih => exact ih _ (crc32_update_lt c b)

theorem esp_rom_crc32_le_lt (init : Nat) (data : List Nat) :
    esp_rom_crc32_le init data < 4294967296 := by
  unfold esp_rom_crc32_le
  exact xor_lt_4294967296 (by norm_num)
    (crc32_fold_lt _ _ (xor_lt_4294967296 (by norm_num) (Nat.mod_lt _ (by norm_num))))

theorem calculate_crc_lt (d : PersistentData) :
    EspNowStorage.calculate_crc d < 4294967296 :=
  esp_rom_crc32_le_lt 0 (preCrcBytes d)

theorem mkBlob_crc_lt (ch : Nat) (ps : List PersistentPeer) :
    (EspNowStorage.mkBlob ch ps).crc < 4294967296 :=
  calculate_crc_lt _

theorem C5_persist_load_roundtrip_amended_witness :
    (([] : List PeerInfo).length ≤ MAX_PEERS) ∧
    (RealPeerManager.persist ⟨none, none⟩ [] 3
      = (⟨some (EspNowStorage.mkBlob 3 (([] : List PeerInfo).map RealPeerManager.info_to_persistent)), some (EspNowStorage.mkBlob 3 (([] : List PeerInfo).map RealPeerManager.info_to_persistent))⟩, EspErr.ok)) ∧
    (RealPeerManager.load_from_storage ⟨some (EspNowStorage.mkBlob 3 (([] : List PeerInfo).map RealPeerManager.info_to_persistent)), some (EspNowStorage.mkBlob 3 (([] : List PeerInfo).map RealPeerManager.info_to_persistent))⟩ [] 0
      = (⟨some (EspNowStorage.mkBlob 3 (([] : List PeerInfo).map RealPeerManager.info_to_persistent)), some (EspNowStorage.mkBlob 3 (([] : List PeerInfo).map RealPeerManager.info_to_persistent))⟩,
         ([] : List PeerInfo).map (fun p => { p with last_seen_ms := 0 }), 3, EspErr.ok)) ∧
    ((4294967296 : Nat) ≠ (EspNowStorage.mkBlob 3 (([] : List PeerInfo).map RealPeerManager.info_to_persistent)).crc) ∧
    (RealPeerManager.load_from_storage
        ⟨some { EspNowStorage.mkBlob 3 (([] : List PeerInfo).map RealPeerManager.info_to_persistent) with crc := 4294967296 }, some { EspNowStorage.mkBlob 3 (([] : List PeerInfo).map RealPeerManager.info_to_persistent) with crc := 4294967296 }⟩ [] 0
      = (⟨some { EspNowStorage.mkBlob 3 (([] : List PeerInfo).map RealPeerManager.info_to_persistent) with crc := 4294967296 }, some { EspNowStorage.mkBlob 3 (([] : List PeerInfo).map RealPeerManager.info_to_persistent) with crc := 4294967296 }⟩, [], 0, EspErr.notFound)) ∧
    (EspNowStorage.load ⟨some (EspNowStorage.mkBlob 3 (([] : List PeerInfo).map RealPeerManager.info_to_persistent)), some (EspNowStorage.mkBlob 3 (([] : List PeerInfo).map RealPeerManager.info_to_persistent))⟩
      = (⟨some (EspNowStorage.mkBlob 3 (([] : List PeerInfo).map RealPeerManager.info_to_persistent)), some (EspNowStorage.mkBlob 3 (([] : List PeerInfo).map RealPeerManager.info_to_persistent))⟩,
         some ((EspNowStorage.mkBlob 3 (([] : List PeerInfo).map RealPeerManager.info_to_persistent)).wifi_channel, (EspNowStorage.mkBlob 3 (([] : List PeerInfo).map RealPeerManager.info_to_persistent)).peers.take (EspNowStorage.mkBlob 3 (([] : List PeerInfo).map RealPeerManager.info_to_persistent)).num_peers))) ∧
    (EspNowStorage.load ⟨some { EspNowStorage.mkBlob 1 [] with crc := 4294967296 }, some (EspNowStorage.mkBlob 1 [])⟩
      = (⟨some (EspNowStorage.mkBlob 1 []), some (EspNowStorage.mkBlob 1 [])⟩,
         some ((EspNowStorage.mkBlob 1 []).wifi_channel, (EspNowStorage.mkBlob 1 []).peers.take (EspNowStorage.mkBlob 1 []).num_peers))) := by
  have h := C5_persist_load_roundtrip_amended ⟨none, none⟩ 3 [] (by decide)
  have hne3 : (4294967296 : Nat) ≠ (EspNowStorage.mkBlob 3 (([] : List PeerInfo).map RealPeerManager.info_to_persistent)).crc := by
    have hlt := mkBlob_crc_lt 3 (([] : List PeerInfo).map RealPeerManager.info_to_persistent)
    omega
  have hne1 : (4294967296 : Nat) ≠ (EspNowStorage.mkBlob 1 []).crc := by
    have hlt := mkBlob_crc_lt 1 []
    omega
  refine ⟨by decide, h.1, h.2.1, hne3, ?_, ?_, ?_⟩
  · exact h.2.2.1 4294967296 hne3
  · exact h.2.2.2.1 ⟨some (EspNowStorage.mkBlob 3 (([] : List PeerInfo).map RealPeerManager.info_to_persistent)), some (EspNowStorage.mkBlob 3 (([] : List PeerInfo).map RealPeerManager.info_to_persistent))⟩ (EspNowStorage.mkBlob 3 (([] : List PeerInfo).map RealPeerManager.info_to_persistent)) rfl
      (validData_mkBlob 3 (([] : List PeerInfo).map RealPeerManager.info_to_persistent))
  · exact h.2.2.2.2 ⟨some { EspNowStorage.mkBlob 1 [] with crc := 4294967296 }, some (EspNowStorage.mkBlob 1 [])⟩
      { EspNowStorage.mkBlob 1 [] with crc := 4294967296 } (EspNowStorage.mkBlob 1 []) rfl
      (validData_crc_altered 1 [] 4294967296 hne1) rfl
      (validData_mkBlob 1 [])

/-- C10: save(wifi_channel, peers, force) with more than 19 peers does
not fail for that reason; num_peers is clamped to MAX_PERSISTENT_PEERS
= 19, and a subsequent successful load returns exactly the first 19
peers, dropping the rest. -/
theorem C10_save_clamps_to_capacity (st : EspNowStorage.StorageState) (ch : Nat)
    (ps : List PersistentPeer) (force : Bool)
    (hlen : MAX_PERSISTENT_PEERS < ps.length) :
    (EspNowStorage.save st ch ps force).2 = EspErr.ok ∧
    (EspNowStorage.mkBlob ch ps).num_peers = MAX_PERSISTENT_PEERS ∧
    EspNowStorage.load (EspNowStorage.save st ch ps force).1
      = ((EspNowStorage.save st ch ps force).1,
         some (ch, ps.take MAX_PERSISTENT_PEERS)) := by
  obtain ⟨hrtc, hok⟩ := save_rtc_eq st ch ps force
  refine ⟨hok, ?_, ?_⟩
  · show min ps.length MAX_PERSISTENT_PEERS = MAX_PERSISTENT_PEERS
    omega
  · have hload := load_rtc_valid _ _ hrtc (validData_mkBlob ch ps)
    rw [hload, mkBlob_peers_take]
    rw [show (EspNowStorage.mkBlob ch ps).wifi_channel = ch from rfl]
    rw [show min ps.length MAX_PERSISTENT_PEERS = MAX_PERSISTENT_PEERS from by omega]

theorem C10_save_clamps_to_capacity_witness :
    (MAX_PERSISTENT_PEERS
      < ((List.range 20).map (fun k =>
          (⟨[0, 0, 0, 0, 0, k], 2, k, 1, false, 0⟩ : PersistentPeer))).length) ∧
    (EspNowStorage.save ⟨none, none⟩ 6
      ((List.range 20).map (fun k =>
        (⟨[0, 0, 0, 0, 0, k], 2, k, 1, false, 0⟩ : PersistentPeer))) true).2 = EspErr.ok ∧
    (EspNowStorage.mkBlob 6
      ((List.range 20).map (fun k =>
        (⟨[0, 0, 0, 0, 0, k], 2, k, 1, false, 0⟩ : PersistentPeer)))).num_peers
      = MAX_PERSISTENT_PEERS ∧
    EspNowStorage.load (EspNowStorage.save ⟨none, none⟩ 6
      ((List.range 20).map (fun k =>
        (⟨[0, 0, 0, 0, 0, k], 2, k, 1, false, 0⟩ : PersistentPeer))) true).1
      = ((EspNowStorage.save ⟨none, none⟩ 6
          ((List.range 20).map (fun k =>
            (⟨[0, 0, 0, 0, 0, k], 2, k, 1, false, 0⟩ : PersistentPeer))) true).1,
         some (6, ((List.range 20).map (fun k =>
            (⟨[0, 0, 0, 0, 0, k], 2, k, 1, false, 0⟩ : PersistentPeer))).take
              MAX_PERSISTENT_PEERS)) := by
  have h := C10_save_clamps_to_capacity ⟨none, none⟩ 6
    ((List.range 20).map (fun k =>
      (⟨[0, 0, 0, 0, 0, k], 2, k, 1, false, 0⟩ : PersistentPeer))) true (by decide)
  exact ⟨by decide, h.1, h.2.1, h.2.2⟩

/-- C7: with the hub active on ANY current radio channel (channel 6 as
much as channel 1), handle_request for a PAIR_REQUEST from a non-hub
sender calls peer_table.add with channel hardcoded to 1 and queues a
PAIR_RESPONSE carrying wifi_channel 1 — the hub's actual channel is
never consulted, contradicting the documented behavior of replying
with the hub's current channel. -/
theorem C7_hub_pair_accept_hardcodes_channel_one :
    ∀ current_channel : Nat,
      RealPairingManager.handle_request true 1 1 current_channel
        ⟨[170, 187, 204, 221, 238, 255],
         [0, 0, 0, 2, 10, 0, 0, 1, 0, 0, 0, 0, 0, 0, 0, 0,
          0, 0, 0, 0, 0, 0, 0, 0, 0, 0, 0, 0, 0, 0, 0, 0,
          0, 0, 0, 0, 0, 0, 0, 0, 0, 0, 0, 136, 19, 0, 0, 0], 48⟩
      = { add_call := some
            { node_id := 10, mac := [170, 187, 204, 221, 238, 255],
              channel := 1, type := 2, heartbeat_interval_ms := 5000 },
          response := some
            { status := RealPairingManager.PAIR_ACCEPTED, wifi_channel := some 1,
              sender_node_id := 1, sender_type := 1, dest_node_id := 10,
              dest_mac := [170, 187, 204, 221, 238, 255] } } := by
  intro current_channel
  rfl

/-- C8 counterexample: a HEARTBEAT_RESPONSE whose wifi_channel field is
0, processed while the stored channel is 1, is NOT ignored — the stored
channel and broadcast peer channel become 0 and a persist is issued,
so the state is not left unchanged. -/
theorem C8_zero_channel_counterexample :
    EspNow.transport_worker_channel_step ⟨1, 1, []⟩ 1
      ⟨[1, 2, 3, 4, 5, 6],
       [3, 0, 0, 1, 1, 0, 0, 10, 0, 0, 0, 0, 0, 0, 0, 0,
        0, 0, 0, 0, 0, 0, 0, 0, 0, 0], 26⟩
      = ⟨0, 0, [0]⟩ ∧
    (⟨0, 0, [0]⟩ : EspNowChannelState) ≠ ⟨1, 1, []⟩ := by decide

/-- C8 amended: for a HEARTBEAT_RESPONSE, the channel byte is compared
with the stored channel only for inequality — there is no special case
for 0.  The state is unchanged exactly when the received channel equals
the stored one; any differing value, 0 included, rewrites the stored
channel and the broadcast peer channel and appends a persist call. -/
theorem C8_channel_update_amended (st : EspNowChannelState) (radio_channel : Nat)
    (pkt : RxPacket) (hdr : MessageHeader)
    (hdec : RealMessageCodec.decode_header pkt.data pkt.len = some hdr)
    (hmsg : hdr.msg_type = 3) :
    (pkt.data.getD EspNow.HEARTBEAT_RESPONSE_CHANNEL_OFFSET 0 = st.config_wifi_channel →
      EspNow.transport_worker_channel_step st radio_channel pkt = st) ∧
    (pkt.data.getD EspNow.HEARTBEAT_RESPONSE_CHANNEL_OFFSET 0 ≠ st.config_wifi_channel →
      EspNow.transport_worker_channel_step st radio_channel pkt
        = ⟨pkt.data.getD EspNow.HEARTBEAT_RESPONSE_CHANNEL_OFFSET 0,
           pkt.data.getD EspNow.HEARTBEAT_RESPONSE_CHANNEL_OFFSET 0,
           st.persist_calls ++ [pkt.data.getD EspNow.HEARTBEAT_RESPONSE_CHANNEL_OFFSET 0]⟩) := by
  constructor
  · intro hc
    unfold EspNow.transport_worker_channel_step
    rw [hdec]
    dsimp only
    rw [if_pos hmsg]
    unfold EspNow.update_wifi_channel
    rw [if_neg (fun hne => hne hc.symm)]
  · intro hc
    unfold EspNow.transport_worker_channel_step
    rw [hdec]
    dsimp only
    rw [if_pos hmsg]
    unfold EspNow.update_wifi_channel
    rw [if_pos (fun he => hc he.symm)]

theorem C8_channel_update_amended_witness :
    (RealMessageCodec.decode_header
      [3, 0, 0, 1, 1, 0, 0, 10, 0, 0, 0, 0, 0, 0, 0, 0,
       0, 0, 0, 0, 0, 0, 0, 0, 5, 0] 26
      = some ⟨3, 0, 1, 1, 0, false, 10, 0⟩) ∧
    ((⟨3, 0, 1, 1, 0, false, 10, 0⟩ : MessageHeader).msg_type = 3) ∧
    (EspNow.transport_worker_channel_step ⟨5, 5, []⟩ 1
      ⟨[1, 2, 3, 4, 5, 6],
       [3, 0, 0, 1, 1, 0, 0, 10, 0, 0, 0, 0, 0, 0, 0, 0,
        0, 0, 0, 0, 0, 0, 0, 0, 5, 0], 26⟩ = ⟨5, 5, []⟩) ∧
    (EspNow.transport_worker_channel_step ⟨1, 1, []⟩ 1
      ⟨[1, 2, 3, 4, 5, 6],
       [3, 0, 0, 1, 1, 0, 0, 10, 0, 0, 0, 0, 0, 0, 0, 0,
        0, 0, 0, 0, 0, 0, 0, 0, 5, 0], 26⟩ = ⟨5, 5, [5]⟩) := by
  have h1 := C8_channel_update_amended ⟨5, 5, []⟩ 1
    ⟨[1, 2, 3, 4, 5, 6],
     [3, 0, 0, 1, 1, 0, 0, 10, 0, 0, 0, 0, 0, 0, 0, 0,
      0, 0, 0, 0, 0, 0, 0, 0, 5, 0], 26⟩
    ⟨3, 0, 1, 1, 0, false, 10, 0⟩ (by decide) rfl
  have h2 := C8_channel_update_amended ⟨1, 1, []⟩ 1
    ⟨[1, 2, 3, 4, 5, 6],
     [3, 0, 0, 1, 1, 0, 0, 10, 0, 0, 0, 0, 0, 0, 0, 0,
      0, 0, 0, 0, 0, 0, 0, 0, 5, 0], 26⟩
    ⟨3, 0, 1, 1, 0, false, 10, 0⟩ (by decide) rfl
  exact ⟨by decide, rfl, h1.1 (by decide), h2.2 (by decide)⟩
